import Mathlib

/-!
# deshade: shader interception layer

A shallow embedding of the parts of `deshade.cpp`, `hash.cpp`, `log.h`, `log.cpp`
and `vk.cpp` that decide the properties stated at the end of this file.

Conventions of the embedding.

* A byte is a `Fin 256`; a 32-bit word is a natural number and every 32-bit
  operation that can wrap is followed by an explicit `% 2 ^ 32`.
* The host is little-endian (`memcpy` of a `uint32_t` array, and the cast of
  `pCode` between `uint32_t*` and `uint8_t*`).
* The file system is a finite-map-like function from paths to readable contents
  together with the set of paths that `std::ofstream` can open.
* Calls that leave the layer (the real driver entry points, the next layer) are
  appended to the `calls` component of the state; what they return is given by
  an environment record.
* `none` as the outcome of an operation stands for a run that does not return
  (`abort()`, a null-pointer dereference, or an exception that leaves the entry point).
-/

namespace Deshade

/-! ## Shared data model -/

/-- One octet of memory or of a file. -/
abbrev Byte := Fin 256

/-- The file system as the process sees it: `files path` is the content that opening
`path` for reading yields (`none` when `std::ifstream` fails to open it), and
`creatable path` tells whether `std::ofstream` can open `path` for writing. -/
structure FileSystem where
  files : String → Option (List Byte)
  creatable : String → Bool

/-- Constructing `std::ifstream file(path)` and reading it to the end:
`none` when `is_open()` is false. -/
def FileSystem.ifstream (fs : FileSystem) (path : String) : Option (List Byte) :=
  fs.files path

/-- Constructing `std::ofstream file(path)` and writing `data` to it:
`none` when `is_open()` is false, in which case nothing is written. -/
def FileSystem.ofstream (fs : FileSystem) (path : String) (data : List Byte) : Option FileSystem :=
  if fs.creatable path then
    some { fs with files := fun p => if p = path then some data else fs.files p }
  else
    none

/-- File-system accesses performed by the layer, in order. -/
inductive FsOp where
  | openRead (path : String)
  | openWrite (path : String)
deriving DecidableEq, Repr

/-- The table `static const char *k_hex = "0123456789ABCDEF"` of both hash functions. -/
def k_hex : List Char := "0123456789ABCDEF".toList

/-- Find in a `std::unordered_map`, kept as an association list with one entry per key. -/
def umap_find {β : Type} (m : List (Nat × β)) (key : Nat) : Option β :=
  match m with
  | [] => none
  | (k, v) :: rest => if k = key then some v else umap_find rest key

/-- Insert of `std::unordered_map`: an existing entry for the key is kept. -/
def umap_insert {β : Type} (m : List (Nat × β)) (key : Nat) (value : β) : List (Nat × β) :=
  match umap_find m key with
  | some _ => m
  | none => (key, value) :: m

/-- Erase by key of `std::unordered_map`. -/
def umap_erase {β : Type} (m : List (Nat × β)) (key : Nat) : List (Nat × β) :=
  match m with
  | [] => []
  | (k, v) :: rest => if k = key then umap_erase rest key else (k, v) :: umap_erase rest key

/-! ## hash.cpp -/

/-- The loop of `Hash128(buffer, size, out)`: `state[s] = state[s] * 33 + *p` in
`uint32_t` arithmetic, then `s = (s+1) & 0x03`. -/
def Hash128_loop : List Byte → List Nat → Nat → List Nat
  | [], state, _ => state
  | p :: rest, state, s =>
    Hash128_loop rest (state.set s ((state.getD s 0 * 33 + p.val) % 2 ^ 32)) ((s + 1) &&& 0x03)

/-- The three-argument `Hash128`: the sixteen bytes that `memcpy(out, state, sizeof state)`
stores, on a little-endian host. -/
def Hash128_out (buffer : List Byte) : List Nat :=
  (Hash128_loop buffer [5381, 5381, 5381, 5381] 0).flatMap
    fun w => [w % 256, w / 256 % 256, w / 65536 % 256, w / 16777216 % 256]

/-- The two-argument `Hash128` of hash.cpp: two characters of `k_hex` per output byte. -/
def Hash128 (buffer : List Byte) : String :=
  String.mk ((Hash128_out buffer).flatMap fun o =>
    [k_hex.getD ((o >>> 4) &&& 0x0F) '0', k_hex.getD (o &&& 0x0F) '0'])

/-! ## Reference definition of the digest, written from the specification -/

/-- Lane `j` of the digest as the specification words it: starting from 5381, every
byte whose 0-based index `i` has `i mod 4 = j` updates the lane, in buffer order, as
`lane = (lane * 33 + byte) mod 2^32`. -/
def specLane (b : List Byte) (j : Nat) : Nat :=
  (b.enum.filter fun ib => ib.1 % 4 = j).foldl
    (fun lane ib => (lane * 33 + ib.2.val) % 2 ^ 32) 5381

/-- Upper-case hexadecimal digit of a nibble, by character code. -/
def specHexChar (n : Nat) : Char :=
  if n < 10 then Char.ofNat (48 + n) else Char.ofNat (55 + n)

/-- The sixteen digest bytes of the specification: lanes 0..3 in order, each lane least
significant byte first. -/
def specDigestBytes (b : List Byte) : List Nat :=
  ((List.range 4).map (specLane b)).flatMap
    fun lane => (List.range 4).map fun k => lane / 256 ^ k % 256

/-- The digest of the specification: every byte as two hexadecimal digits, high nibble
first. -/
def specDigest (b : List Byte) : String :=
  String.mk ((specDigestBytes b).flatMap fun x => [specHexChar (x / 16), specHexChar (x % 16)])

/-! ## deshade.cpp: the legacy (text source) front end -/

namespace OpenGL

/-- The loop of the three-argument `hash128` of deshade.cpp. -/
def hash128_loop : List Byte → List Nat → Nat → List Nat
  | [], state, _ => state
  | p :: rest, state, s =>
    hash128_loop rest (state.set s ((state.getD s 0 * 33 + p.val) % 2 ^ 32)) ((s + 1) &&& 0x03)

/-- The three-argument `hash128`: the sixteen bytes stored by `memcpy`, little-endian host. -/
def hash128_out (buffer : List Byte) : List Nat :=
  (hash128_loop buffer [5381, 5381, 5381, 5381] 0).flatMap
    fun w => [w % 256, w / 256 % 256, w / 65536 % 256, w / 16777216 % 256]

/-- The two-argument `hash128` of deshade.cpp. -/
def hash128 (buffer : List Byte) : String :=
  String.mk ((hash128_out buffer).flatMap fun o =>
    [k_hex.getD ((o >>> 4) &&& 0x0F) '0', k_hex.getD (o &&& 0x0F) '0'])

/-- The type `GLenum` (an unsigned integer). -/
abbrev GLenum := Nat

/-- Modelled from the spec: the stage enumerator for vertex shaders; the value is the one
of the OpenGL headers, which are not part of the repository. -/
def GL_VERTEX_SHADER : GLenum := 0x8B31
/-- Modelled from the spec: the stage enumerator for fragment shaders (OpenGL header value). -/
def GL_FRAGMENT_SHADER : GLenum := 0x8B30
/-- Modelled from the spec: the stage enumerator for compute shaders (OpenGL header value). -/
def GL_COMPUTE_SHADER : GLenum := 0x91B9
/-- Modelled from the spec: the stage enumerator for geometry shaders (OpenGL header value). -/
def GL_GEOMETRY_SHADER : GLenum := 0x8DD9
/-- Modelled from the spec: the stage enumerator for tessellation-control shaders
(OpenGL header value). -/
def GL_TESS_CONTROL_SHADER : GLenum := 0x8E88
/-- Modelled from the spec: the stage enumerator for tessellation-evaluation shaders
(OpenGL header value). -/
def GL_TESS_EVALUATION_SHADER : GLenum := 0x8E87

/-- The function `GetShaderExtensionString(GLenum)` of deshade.cpp. -/
def GetShaderExtensionString (shader_type : GLenum) : String :=
  if shader_type = GL_VERTEX_SHADER then "_vs.glsl"
  else if shader_type = GL_FRAGMENT_SHADER then "_fs.glsl"
  else if shader_type = GL_COMPUTE_SHADER then "_cs.glsl"
  else if shader_type = GL_GEOMETRY_SHADER then "_gs.glsl"
  else if shader_type = GL_TESS_CONTROL_SHADER then "_tsc.glsl"
  else if shader_type = GL_TESS_EVALUATION_SHADER then "_tse.glsl"
  else "<unknown>"

/-- The function `GetShaderTypeString(GLenum)` of deshade.cpp. -/
def GetShaderTypeString (shader_type : GLenum) : String :=
  if shader_type = GL_VERTEX_SHADER then "vertex"
  else if shader_type = GL_FRAGMENT_SHADER then "fragment"
  else if shader_type = GL_COMPUTE_SHADER then "compute"
  else if shader_type = GL_GEOMETRY_SHADER then "geometry"
  else if shader_type = GL_TESS_CONTROL_SHADER then "tesselation control"
  else if shader_type = GL_TESS_EVALUATION_SHADER then "tesselation evaluation"
  else "<unknown>"

/-- Both overloads of `Log` of deshade.cpp on a format and the already rendered
arguments: the text appended to the log, or `none` when `abort()` is reached. With no
argument left this is `Log(const char*)`; otherwise it is the variadic template, which
on an unescaped percent sign writes the first argument and continues with the others
behind that sign. -/
def Log : List Char → List String → Option (List Char)
  | [], _ => some []
  | c :: rest, args =>
    if c = '%' then
      match rest with
      | '%' :: rest' => (Log rest' args).map fun out => '%' :: out
      | rest =>
        match args with
        | [] => none
        | value :: args' => (Log rest args').map fun out => value.toList ++ out
    else
      (Log rest args).map fun out => c :: out
termination_by structural format => format

/-- Conversion of a `size_t` to `GLint` (32-bit two-complement). -/
def toGLint (n : Nat) : Int :=
  ((n : Int) + 2 ^ 31) % 2 ^ 32 - 2 ^ 31

/-- A call of the real `glShaderSource` through the saved pointer `glShaderSource_`:
the pointer, the shader handle, the count, the memory behind each of the `count` string
pointers, and the `count` entries of the length array. -/
structure ShaderSourceCall where
  fn : Nat
  shader : Nat
  count : Int
  string : List (List Byte)
  length : List Int
deriving DecidableEq, Repr

/-- The members of `struct Context` that `ShaderSource` uses. -/
structure Context where
  shader_handle_to_type : List (Nat × GLenum)
  glShaderSource_ : Nat
  log_ : List Char

/-- Everything `ShaderSource` reads or changes: the context singleton, the file system,
the file-system accesses made so far and the calls of the real driver made so far. -/
structure State where
  context : Context
  fs : FileSystem
  fsOps : List FsOp
  calls : List ShaderSourceCall

/-- Append the output of one `Log` call to `context.log_`; `none` when it aborts. -/
def State.log (st : State) (format : String) (args : List String) : Option State :=
  (Log format.toList args).map fun out =>
    { st with context := { st.context with log_ := st.context.log_ ++ out } }

/-- The stage recorded for a shader handle, 0 when the handle is not registered
(the first lines of `ShaderSource`). -/
def shaderTypeOf (context : Context) (shader : Nat) : GLenum :=
  match umap_find context.shader_handle_to_type shader with
  | some shader_type => shader_type
  | none => 0

/-- What one turn of the concatenation loop of `ShaderSource` appends for fragment `i`.
`string i` is the memory readable from the pointer `string[i]`. With a length array the
turn runs `source.insert(source.end(), string[i], string[i] + length[i])`, where
`length[i]` is a signed `GLint`: for a negative entry the range ends before it begins,
`insert` throws `std::length_error` and the exception leaves `ShaderSource` (`none`);
otherwise the first `length[i]` bytes are appended. Without a length array the bytes
before the first NUL are appended. -/
def fragment (string : Nat → List Byte) (length : Option (Nat → Int)) (i : Nat) :
    Option (List Byte) :=
  match length with
  | some length => if length i < 0 then none else some ((string i).take (length i).toNat)
  | none => some ((string i).takeWhile fun ch => ch ≠ 0)

/-- The concatenation loop of `ShaderSource` over the fragment indices still to visit,
with the bytes gathered so far. -/
def concatenate_loop (string : Nat → List Byte) (length : Option (Nat → Int)) :
    List Nat → List Byte → Option (List Byte)
  | [], source => some source
  | i :: rest, source =>
    match fragment string length i with
    | none => none
    | some bytes => concatenate_loop string length rest (source ++ bytes)

/-- The vector `source` of `ShaderSource` after the concatenation loop, `none` when the
loop throws. A negative `count` runs the loop zero times. -/
def concatenate (count : Int) (string : Nat → List Byte) (length : Option (Nat → Int)) :
    Option (List Byte) :=
  concatenate_loop string length (List.range count.toNat) []

/-- The erase/remove_if line of `ShaderSource`: every carriage return is removed. -/
def removeCR (source : List Byte) : List Byte :=
  source.filter fun ch => ch ≠ 13

/-- The local `file_name` of `ShaderSource`, for the vector `source` as the concatenation
loop left it. -/
def file_name (context : Context) (shader : Nat) (source : List Byte) : String :=
  "shaders/" ++ hash128 (removeCR source) ++
    GetShaderExtensionString (shaderTypeOf context shader)

/-- The tail of `ShaderSource`: the real call with one fragment and its explicit length,
then the closing log line. -/
def placeCall (st : State) (shader : Nat) (shader_type_string hash : String)
    (contents : List Byte) : Option State :=
  State.log
    { st with calls := st.calls ++
        [{ fn := st.context.glShaderSource_, shader := shader, count := 1,
           string := [contents], length := [toGLint contents.length] }] }
    "Source % shader \"%\"\n" [shader_type_string, hash]

/-- The replacement `ShaderSource(shader, count, string, length)` of deshade.cpp. -/
def ShaderSource (st : State) (shader : Nat) (count : Int) (string : Nat → List Byte)
    (length : Option (Nat → Int)) : Option State :=
  let shader_type := shaderTypeOf st.context shader
  let shader_type_string := GetShaderTypeString shader_type
  match concatenate count string length with
  | none => none
  | some source =>
    let file_name := file_name st.context shader source
    let source := removeCR source
    let hash := hash128 source
    let st := { st with fsOps := st.fsOps ++ [FsOp.openRead file_name] }
    match st.fs.ifstream file_name with
    | some replacement =>
      (st.log "Replaced % shader \"%\"\n" [shader_type_string, hash]).bind fun st =>
        placeCall st shader shader_type_string hash replacement
    | none =>
      let st := { st with fsOps := st.fsOps ++ [FsOp.openWrite file_name] }
      match st.fs.ofstream file_name source with
      | some fs =>
        (State.log { st with fs := fs } "Dumpped % shader \"%\"\n"
          [shader_type_string, hash]).bind
          fun st => placeCall st shader shader_type_string hash source
      | none => placeCall st shader shader_type_string hash source

end OpenGL

/-! ## vk.cpp, log.h, log.cpp: the bytecode (layer chain) front end -/

namespace Vulkan

/-- The enumeration `ExecutionModel` of vk.cpp. -/
inductive ExecutionModel where
  | Unknown
  | Vertex
  | TessellationControl
  | TessellationEvaluation
  | Geometry
  | Fragment
  | Compute
  | Kernel
deriving DecidableEq, Repr

/-- The `while (code < end)` loop of `GetExecutionModel`. `code i` is the 32-bit word at
`code + i`, `end_` is the index of the `end` pointer counted in words from the original
`code`, and `pos` is the current value of `code`. Every turn advances `pos` by at
least one, so `end_ - pos` turns always suffice (`GetExecutionModel_loop_fuel`); the
first argument counts them down.

The source line `uint16_t length = (uint16_t)((token & 0xFFFF0000)) >> 16;` applies the
cast to the masked token before the shift: the masked value is first reduced modulo
`2^16`, the result is shifted right by 16 and stored in a `uint16_t`. -/
def GetExecutionModel_loop (code : Nat → Nat) (end_ : Nat) : Nat → Nat → ExecutionModel
  | 0, _ => ExecutionModel.Unknown
  | fuel + 1, pos =>
    if pos < end_ then
      let token := code pos
      let opcode := token &&& 0x0000FFFF
      let length := (((token &&& 0xFFFF0000) % 2 ^ 16) >>> 16) % 2 ^ 16
      let length := if length = 0 then 1 else length
      if opcode = 15 then
        if code (pos + 1) = 0 then ExecutionModel.Vertex
        else if code (pos + 1) = 1 then ExecutionModel.TessellationControl
        else if code (pos + 1) = 2 then ExecutionModel.TessellationEvaluation
        else if code (pos + 1) = 3 then ExecutionModel.Geometry
        else if code (pos + 1) = 4 then ExecutionModel.Fragment
        else if code (pos + 1) = 5 then ExecutionModel.Kernel
        else GetExecutionModel_loop code end_ fuel (pos + length)
      else
        GetExecutionModel_loop code end_ fuel (pos + length)
    else
      ExecutionModel.Unknown

/-- The function `GetExecutionModel(code, end)` of vk.cpp. -/
def GetExecutionModel (code : Nat → Nat) (end_ : Nat) : ExecutionModel :=
  if code 0 = 0x07230203 then
    GetExecutionModel_loop code end_ (end_ - 5) 5
  else
    ExecutionModel.Unknown

/-- The function `GetShaderTypeString(ExecutionModel)` of vk.cpp. -/
def GetShaderTypeString : ExecutionModel → String
  | .Vertex => "vertex"
  | .TessellationControl => "tessellation control"
  | .TessellationEvaluation => "tessellation evaluation"
  | .Geometry => "geometry"
  | .Fragment => "fragment"
  | .Compute => "compute"
  | .Kernel => "kernel"
  | .Unknown => "unknown"

/-- The function `GetShaderExtensionString(ExecutionModel)` of vk.cpp. -/
def GetShaderExtensionString : ExecutionModel → String
  | .Vertex => "_vs.bin"
  | .TessellationControl => "_tcs.bin"
  | .TessellationEvaluation => "_tes.bin"
  | .Geometry => "_gs.bin"
  | .Fragment => "_fs.bin"
  | .Compute => "_cs.bin"
  | .Kernel => "_ks.bin"
  | .Unknown => ""

/-- Both overloads of `Log` of log.h and log.cpp on a format and the already rendered
arguments: the text written to the logger. With no argument left this is
`Log(const char*)` of log.cpp, which leaves its loop at an unescaped percent sign. -/
def Log : List Char → List String → List Char
  | [], _ => []
  | c :: rest, args =>
    if c ≠ '%' then
      c :: Log rest args
    else
      match rest with
      | '%' :: rest' => '%' :: Log rest' args
      | rest =>
        match args with
        | [] => []
        | value :: args' => value.toList ++ Log rest args'
termination_by structural format => format

/-- The type `VkResult`. -/
abbrev VkResult := Int

/-- Modelled from the spec: the success code; the value is the one of the Vulkan headers,
which are not part of the repository. -/
def VK_SUCCESS : VkResult := 0
/-- Modelled from the spec: the initialization failure code (Vulkan header value). -/
def VK_ERROR_INITIALIZATION_FAILED : VkResult := -3
/-- Modelled from the spec: the device or object lost code (Vulkan header value). -/
def VK_ERROR_DEVICE_LOST : VkResult := -4

/-- Modelled from the spec: the structure type of the recognized record kind in the
creation chain of an instance (Vulkan header value). -/
def VK_STRUCTURE_TYPE_LOADER_INSTANCE_CREATE_INFO : Nat := 47
/-- Modelled from the spec: the structure type of the recognized record kind in the
creation chain of a device (Vulkan header value). -/
def VK_STRUCTURE_TYPE_LOADER_DEVICE_CREATE_INFO : Nat := 48
/-- Modelled from the spec: the function code of a layer link record (Vulkan layer
header value). -/
def VK_LAYER_LINK_INFO : Nat := 0

/-- The members of `VkLayerInstanceDispatchTable` that vk.cpp fills: addresses of the
entry points of the next layer. -/
structure VkLayerInstanceDispatchTable where
  GetInstanceProcAddr : Nat
  DestroyInstance : Nat
  EnumerateDeviceExtensionProperties : Nat
deriving DecidableEq, Repr

/-- The members of `VkLayerDispatchTable` that vk.cpp fills. -/
structure VkLayerDispatchTable where
  GetDeviceProcAddr : Nat
  DestroyDevice : Nat
  CreateShaderModule : Nat
deriving DecidableEq, Repr

/-- The maps of `struct ContextVK`. -/
structure ContextVK where
  instance_dispatch_ : List (Nat × VkLayerInstanceDispatchTable)
  device_dispatch_ : List (Nat × VkLayerDispatchTable)
deriving DecidableEq, Repr

/-- One element of the list behind `u.pLayerInfo` of an instance record: the address of
the next `vkGetInstanceProcAddr`. The `pNext` member is the tail of the list. -/
structure VkLayerInstanceLink where
  pfnNextGetInstanceProcAddr : Nat
deriving DecidableEq, Repr

/-- One record of the `pNext` chain of a `VkInstanceCreateInfo`, read through a
`VkLayerInstanceCreateInfo*`; an empty `pLayerInfo` is a null pointer. -/
structure VkLayerInstanceCreateInfo where
  sType : Nat
  function : Nat
  pLayerInfo : List VkLayerInstanceLink
deriving DecidableEq, Repr

/-- One element of the list behind `u.pLayerInfo` of a device record. -/
structure VkLayerDeviceLink where
  pfnNextGetInstanceProcAddr : Nat
  pfnNextGetDeviceProcAddr : Nat
deriving DecidableEq, Repr

/-- One record of the `pNext` chain of a `VkDeviceCreateInfo`, read through a
`VkLayerDeviceCreateInfo*`. -/
structure VkLayerDeviceCreateInfo where
  sType : Nat
  function : Nat
  pLayerInfo : List VkLayerDeviceLink
deriving DecidableEq, Repr

/-- Calls that leave the layer through a function pointer `fn`, with their arguments. -/
inductive Call where
  | GetInstanceProcAddr (fn inst : Nat) (pName : String)
  | GetDeviceProcAddr (fn device : Nat) (pName : String)
  | CreateInstance (fn : Nat) (chain : List VkLayerInstanceCreateInfo)
  | CreateDevice (fn physicalDevice : Nat) (chain : List VkLayerDeviceCreateInfo)
  | CreateShaderModule (fn device codeSize : Nat) (pCode : List Byte)
deriving DecidableEq, Repr

/-- What a real creation call leaves behind: its result, the handle it stored through
`pInstance` or `pDevice`, and the memory afterwards (`memory h` is the first
pointer-sized word stored at address `h`). -/
structure CreateOutcome where
  result : VkResult
  handle : Nat
  memory : Nat → Nat

/-- Behaviour of the code behind the function pointers the layer calls: the first
argument of each field is the address called. -/
structure NextLayer where
  GetInstanceProcAddr : Nat → Nat → String → Nat
  GetDeviceProcAddr : Nat → Nat → String → Nat
  CreateInstance : Nat → List VkLayerInstanceCreateInfo → (Nat → Nat) → CreateOutcome
  CreateDevice : Nat → Nat → List VkLayerDeviceCreateInfo → (Nat → Nat) → CreateOutcome
  CreateShaderModule : Nat → Nat → List Byte → VkResult

/-- Everything the entry points of vk.cpp read or change: the context singleton, the
memory the handles point to, the file system, the accesses to it, the text written to
the logger and the calls that left the layer. -/
structure State where
  context : ContextVK
  memory : Nat → Nat
  fs : FileSystem
  fsOps : List FsOp
  log_ : List Char
  calls : List Call

/-- The template `DispatchKey`: the first pointer-sized word stored where the handle
points. -/
def DispatchKey (memory : Nat → Nat) (handle : Nat) : Nat :=
  memory handle

/-- The entry point `deshade_vkCreateInstance`. `chain` is the list reached from
`pCreateInfo->pNext`. The outcome is `none` when the record found has a null
`u.pLayerInfo`, which the source dereferences; otherwise it is the result, the handle
stored through `pInstance` (by the real creation call, if that was reached) and the
state afterwards. -/
def deshade_vkCreateInstance (env : NextLayer) (st : State)
    (chain : List VkLayerInstanceCreateInfo) : Option (VkResult × Option Nat × State) :=
  let skipped := chain.takeWhile fun r =>
    r.sType ≠ VK_STRUCTURE_TYPE_LOADER_INSTANCE_CREATE_INFO ∨ r.function ≠ VK_LAYER_LINK_INFO
  let found := chain.dropWhile fun r =>
    r.sType ≠ VK_STRUCTURE_TYPE_LOADER_INSTANCE_CREATE_INFO ∨ r.function ≠ VK_LAYER_LINK_INFO
  match found with
  | [] => some (VK_ERROR_INITIALIZATION_FAILED, none, st)
  | pLayerCreateInfo :: rest =>
    match pLayerCreateInfo.pLayerInfo with
    | [] => none
    | link :: pNext =>
      let pvkGetInstanceProcAddr := link.pfnNextGetInstanceProcAddr
      let chain := skipped ++ { pLayerCreateInfo with pLayerInfo := pNext } :: rest
      let pvkCreateInstance := env.GetInstanceProcAddr pvkGetInstanceProcAddr 0 "vkCreateInstance"
      let out := env.CreateInstance pvkCreateInstance chain st.memory
      let st := { st with
        memory := out.memory
        calls := st.calls ++ [Call.GetInstanceProcAddr pvkGetInstanceProcAddr 0 "vkCreateInstance",
          Call.CreateInstance pvkCreateInstance chain] }
      if out.result ≠ VK_SUCCESS then
        some (VK_ERROR_INITIALIZATION_FAILED, some out.handle, st)
      else
        let dispatch_table : VkLayerInstanceDispatchTable :=
          { GetInstanceProcAddr :=
              env.GetInstanceProcAddr pvkGetInstanceProcAddr out.handle "vkGetInstanceProcAddr"
            DestroyInstance :=
              env.GetInstanceProcAddr pvkGetInstanceProcAddr out.handle "vkDestroyInstance"
            EnumerateDeviceExtensionProperties :=
              env.GetInstanceProcAddr pvkGetInstanceProcAddr out.handle
                "vkEnumerateDeviceExtensionProperties" }
        some (VK_SUCCESS, some out.handle,
          { st with
            calls := st.calls ++
              [Call.GetInstanceProcAddr pvkGetInstanceProcAddr out.handle "vkGetInstanceProcAddr",
               Call.GetInstanceProcAddr pvkGetInstanceProcAddr out.handle "vkDestroyInstance",
               Call.GetInstanceProcAddr pvkGetInstanceProcAddr out.handle
                 "vkEnumerateDeviceExtensionProperties"]
            context := { st.context with
              instance_dispatch_ := umap_insert st.context.instance_dispatch_
                (DispatchKey st.memory out.handle) dispatch_table } })

/-- The entry point `deshade_vkDestroyInstance`. -/
def deshade_vkDestroyInstance (st : State) (inst : Nat) : State :=
  { st with context := { st.context with
      instance_dispatch_ := umap_erase st.context.instance_dispatch_ (DispatchKey st.memory inst) } }

/-- The entry point `deshade_vkCreateDevice`. `chain` is the list reached from
`pCreateInfo->pNext`; `none` when the record found has a null `u.pLayerInfo`,
otherwise the result, the handle stored through `pDevice` and the state afterwards. -/
def deshade_vkCreateDevice (env : NextLayer) (st : State) (physicalDevice : Nat)
    (chain : List VkLayerDeviceCreateInfo) : Option (VkResult × Option Nat × State) :=
  let skipped := chain.takeWhile fun r =>
    r.sType ≠ VK_STRUCTURE_TYPE_LOADER_DEVICE_CREATE_INFO ∨ r.function ≠ VK_LAYER_LINK_INFO
  let found := chain.dropWhile fun r =>
    r.sType ≠ VK_STRUCTURE_TYPE_LOADER_DEVICE_CREATE_INFO ∨ r.function ≠ VK_LAYER_LINK_INFO
  match found with
  | [] => some (VK_ERROR_INITIALIZATION_FAILED, none, st)
  | pLayerCreateInfo :: rest =>
    match pLayerCreateInfo.pLayerInfo with
    | [] => none
    | link :: pNext =>
      let pvkGetInstanceProcAddr := link.pfnNextGetInstanceProcAddr
      let pvkGetDeviceProcAddr := link.pfnNextGetDeviceProcAddr
      let chain := skipped ++ { pLayerCreateInfo with pLayerInfo := pNext } :: rest
      let pvkCreateDevice := env.GetInstanceProcAddr pvkGetInstanceProcAddr 0 "vkCreateDevice"
      let out := env.CreateDevice pvkCreateDevice physicalDevice chain st.memory
      let st := { st with
        memory := out.memory
        calls := st.calls ++ [Call.GetInstanceProcAddr pvkGetInstanceProcAddr 0 "vkCreateDevice",
          Call.CreateDevice pvkCreateDevice physicalDevice chain] }
      if out.result ≠ VK_SUCCESS then
        some (VK_ERROR_INITIALIZATION_FAILED, some out.handle, st)
      else
        let dispatch_table : VkLayerDispatchTable :=
          { GetDeviceProcAddr :=
              env.GetDeviceProcAddr pvkGetDeviceProcAddr out.handle "vkGetDeviceProcAddr"
            DestroyDevice :=
              env.GetDeviceProcAddr pvkGetDeviceProcAddr out.handle "vkDestroyDevice"
            CreateShaderModule :=
              env.GetDeviceProcAddr pvkGetDeviceProcAddr out.handle "vkCreateShaderModule" }
        some (VK_SUCCESS, some out.handle,
          { st with
            calls := st.calls ++
              [Call.GetDeviceProcAddr pvkGetDeviceProcAddr out.handle "vkGetDeviceProcAddr",
               Call.GetDeviceProcAddr pvkGetDeviceProcAddr out.handle "vkDestroyDevice",
               Call.GetDeviceProcAddr pvkGetDeviceProcAddr out.handle "vkCreateShaderModule"]
            context := { st.context with
              device_dispatch_ := umap_insert st.context.device_dispatch_
                (DispatchKey st.memory out.handle) dispatch_table } })

/-- The entry point `deshade_vkDestroyDevice`. -/
def deshade_vkDestroyDevice (st : State) (device : Nat) : State :=
  { st with context := { st.context with
      device_dispatch_ := umap_erase st.context.device_dispatch_ (DispatchKey st.memory device) } }

/-- The 32-bit word `pCode[i]` of a buffer given by its bytes, little-endian host. -/
def loadWord (pCode : Nat → Byte) (i : Nat) : Nat :=
  (pCode (4 * i)).val + 256 * (pCode (4 * i + 1)).val + 65536 * (pCode (4 * i + 2)).val +
    16777216 * (pCode (4 * i + 3)).val

/-- The `codeSize` bytes at `pCode`. -/
def submitted (pCode : Nat → Byte) (codeSize : Nat) : List Byte :=
  (List.range codeSize).map pCode

/-- The local `model` of `deshade_vkCreateShaderModule`: the second argument of
`GetExecutionModel` there is `(const uint32_t *)((const uint8_t *)pCode) + pCreateInfo->codeSize`,
in which the cast back to `const uint32_t *` is applied before the addition. -/
def modelOf (pCode : Nat → Byte) (codeSize : Nat) : ExecutionModel :=
  GetExecutionModel (loadWord pCode) codeSize

/-- The local `file_name` of `deshade_vkCreateShaderModule`. -/
def file_name (pCode : Nat → Byte) (codeSize : Nat) : String :=
  "shaders/" ++ Hash128 (submitted pCode codeSize) ++
    GetShaderExtensionString (modelOf pCode codeSize)

/-- Append the output of one `Log` call to the logger. -/
def State.log (st : State) (format : String) (args : List String) : State :=
  { st with log_ := st.log_ ++ Log format.toList args }

/-- The tail of `deshade_vkCreateShaderModule`: the call of the real entry point of
the record found, with `codeSize = contents.size()` and `pCode = contents.data()`. -/
def forward (env : NextLayer) (st : State) (table : VkLayerDispatchTable) (device : Nat)
    (contents : List Byte) : VkResult × State :=
  (env.CreateShaderModule table.CreateShaderModule device contents,
   { st with calls := st.calls ++
      [Call.CreateShaderModule table.CreateShaderModule device contents.length contents] })

/-- The entry point `deshade_vkCreateShaderModule`. `pCode k` is the byte at address
`pCode + k`, inside the submitted buffer or behind it. -/
def deshade_vkCreateShaderModule (env : NextLayer) (st : State) (device : Nat)
    (pCode : Nat → Byte) (codeSize : Nat) : VkResult × State :=
  match umap_find st.context.device_dispatch_ (DispatchKey st.memory device) with
  | some table =>
    let model := modelOf pCode codeSize
    let hash := Hash128 (submitted pCode codeSize)
    let file_name := file_name pCode codeSize
    let st := { st with fsOps := st.fsOps ++ [FsOp.openRead file_name] }
    match st.fs.ifstream file_name with
    | some replacement =>
      forward env (st.log "Replaced % shader \"%\"\n" [GetShaderTypeString model, hash])
        table device replacement
    | none =>
      let contents := submitted pCode codeSize
      let st := { st with fsOps := st.fsOps ++ [FsOp.openWrite file_name] }
      match st.fs.ofstream file_name contents with
      | some fs =>
        forward env
          (State.log { st with fs := fs } "Dumpped % shader \"%\"\n"
            [GetShaderTypeString model, hash])
          table device contents
      | none => forward env st table device contents
  | none => (VK_ERROR_DEVICE_LOST, st)

end Vulkan

/-! ## Format-string misuse, written from the specification -/

/-- Misuse of a format string as the specification words it: reading the format from
the left, a percent sign followed by another one is the escaped form, any other percent
sign is a placeholder that takes the next argument, and the format is misused when a
placeholder is met while no argument remains. The second argument counts the arguments
still available. -/
def misused : List Char → Nat → Bool
  | [], _ => false
  | c :: rest, n =>
    if c = '%' then
      match rest with
      | '%' :: rest' => misused rest' n
      | rest =>
        match n with
        | 0 => true
        | n + 1 => misused rest n
    else
      misused rest n
termination_by structural format => format

/-! ## Concrete inputs used to exercise the statements below -/

/-- A buffer of exactly 7 words: magic, four header words, an entry-point word with word
count 3, model code 4. -/
def fragmentModule : Nat → Nat :=
  fun i => [0x07230203, 0x00010000, 0, 8, 0, 0x0003000F, 4].getD i 0

/-- A buffer of 8 words (32 bytes) that does not start with the magic word but carries an
entry-point word with model code 4 further on; the words are stored least significant
byte first. -/
def notAModule : Nat → Byte :=
  fun k => [0x04, 0x02, 0x23, 0x07, 0, 0, 0, 0, 0, 0, 0, 0, 0, 0, 0, 0, 0, 0, 0, 0,
    0x0F, 0, 0x03, 0, 0x04, 0, 0, 0, 0, 0, 0, 0].getD k 0

/-- The bytes of `fragmentModule`, least significant byte of each word first; bytes
behind the 28 of the buffer read as 0. -/
def fragmentModuleBytes : Nat → Byte :=
  fun k => [3, 2, 35, 7, 0, 0, 1, 0, 0, 0, 0, 0, 8, 0, 0, 0, 0, 0, 0, 0,
    15, 0, 3, 0, 4, 0, 0, 0].getD k 0

/-- A next layer that hands out fixed addresses, accepts every shader module, and whose
creation calls return `result` with the new instance at address 5000, or the new device
at address 5008, holding the dispatch pointer `key`. -/
def sampleLayer (result : Vulkan.VkResult) (key : Nat) : Vulkan.NextLayer where
  GetInstanceProcAddr := fun _ _ name => name.length
  GetDeviceProcAddr := fun _ _ name => 1000 + name.length
  CreateInstance := fun _ _ memory =>
    { result := result, handle := 5000, memory := fun h => if h = 5000 then key else memory h }
  CreateDevice := fun _ _ _ memory =>
    { result := result, handle := 5008, memory := fun h => if h = 5008 then key else memory h }
  CreateShaderModule := fun _ _ _ => Vulkan.VK_SUCCESS

/-- An instance creation chain: an unrelated record followed by the link record of the
loader. -/
def instanceChain : List Vulkan.VkLayerInstanceCreateInfo :=
  [{ sType := 1000011000, function := 7, pLayerInfo := [] },
   { sType := Vulkan.VK_STRUCTURE_TYPE_LOADER_INSTANCE_CREATE_INFO,
     function := Vulkan.VK_LAYER_LINK_INFO,
     pLayerInfo := [{ pfnNextGetInstanceProcAddr := 77 }] }]

/-- A device creation chain: an unrelated record followed by the link record of the
loader. -/
def deviceChain : List Vulkan.VkLayerDeviceCreateInfo :=
  [{ sType := 1000011000, function := 7, pLayerInfo := [] },
   { sType := Vulkan.VK_STRUCTURE_TYPE_LOADER_DEVICE_CREATE_INFO,
     function := Vulkan.VK_LAYER_LINK_INFO,
     pLayerInfo := [{ pfnNextGetInstanceProcAddr := 77, pfnNextGetDeviceProcAddr := 78 }] }]

/-- A layer state with one instance record and one device record, both under the
dispatch pointer 100, which is what the objects at the addresses 5000 and 5008 hold. The
cache holds `files`; whether files can be created is given. -/
def registered (files : String → Option (List Byte)) (writable : Bool) : Vulkan.State where
  context :=
    { instance_dispatch_ :=
        [(100, { GetInstanceProcAddr := 21, DestroyInstance := 22,
                 EnumerateDeviceExtensionProperties := 23 })]
      device_dispatch_ :=
        [(100, { GetDeviceProcAddr := 31, DestroyDevice := 32, CreateShaderModule := 33 })] }
  memory := fun h => if h = 5000 ∨ h = 5008 then 100 else 0
  fs := { files := files, creatable := fun _ => writable }
  fsOps := []
  log_ := []
  calls := []

/-- A cache that holds one file, under the digest of `fragmentModuleBytes` and the
fragment suffix. -/
def cachedFragmentModule : String → Option (List Byte) :=
  fun p =>
    if p = "shaders/A3B8B2EAE716B49DCC144B8CAC46971E_fs.bin" then some [1, 2, 3, 4] else none

/-- An instance creation chain without a link record: its second record has the loader
type as its structure type, but another function code. -/
def noLinkInstanceChain : List Vulkan.VkLayerInstanceCreateInfo :=
  [{ sType := 1000011000, function := 0, pLayerInfo := [] },
   { sType := Vulkan.VK_STRUCTURE_TYPE_LOADER_INSTANCE_CREATE_INFO, function := 1,
     pLayerInfo := [] }]

/-- A device creation chain without a link record. -/
def noLinkDeviceChain : List Vulkan.VkLayerDeviceCreateInfo :=
  [{ sType := Vulkan.VK_STRUCTURE_TYPE_LOADER_DEVICE_CREATE_INFO, function := 1,
     pLayerInfo := [] }]

/-- The bytes of a list of 32-bit words, least significant byte of each word first;
bytes behind the list read as 0. -/
def bytesOfWords (words : List Nat) : Nat → Byte :=
  fun k => Fin.ofNat (words.getD (k / 4) 0 / 256 ^ (k % 4))

/-- The memory that holds the 32-bit words of a list, reading 0 behind it. -/
def wordsAt (words : List Nat) : Nat → Nat :=
  fun i => words.getD i 0

/-- A module of 10 words: header, a three-word instruction with opcode 17 whose first
operand word is `0x0000000F`, then an entry-point instruction with model code 4. -/
def operandLooksLikeEntryPoint : List Nat :=
  [0x07230203, 0, 0, 0, 0, 0x00030011, 0x0000000F, 0x00000000, 0x0003000F, 0x00000004]

/-- A module of 13 words: header, an entry-point instruction of four words with model
code 6, then an entry-point instruction of four words with model code 0. -/
def twoEntryPoints : List Nat :=
  [0x07230203, 0x00010000, 0, 16, 0, 0x0004000F, 6, 1, 0x0000006B, 0x0004000F, 0, 2,
   0x00000076]

/-- A module of 6 words (24 bytes) without an entry-point instruction: header and one
instruction of one word with opcode 17. -/
def noEntryPoint : List Nat :=
  [0x07230203, 0x00010000, 0, 8, 0, 0x00010011]

/-- A module of 6 words (24 bytes) whose last word is an entry-point word. -/
def entryPointLast : List Nat :=
  [0x07230203, 0x00010000, 0, 8, 0, 0x0003000F]

/-- A module of 7 words whose entry-point instruction carries model code 5. -/
def modelCodeFive : List Nat :=
  [0x07230203, 0x00010000, 0, 8, 0, 0x0003000F, 5]

end Deshade

/-! # Properties -/

namespace Deshade

/-! ## Content digest -/

theorem specLane_snoc (pre : List Byte) (p : Byte) (j : Nat) :
    specLane (pre ++ [p]) j =
      if pre.length % 4 = j then (specLane pre j * 33 + p.val) % 2 ^ 32 else specLane pre j := by
  unfold specLane
  rw [List.enum_append, List.filter_append, List.foldl_append]
  by_cases h : pre.length % 4 = j <;> simp [List.enumFrom, h]

theorem Hash128_loop_lanes (rest pre : List Byte) :
    Hash128_loop rest ((List.range 4).map (specLane pre)) (pre.length % 4) =
      (List.range 4).map (specLane (pre ++ rest)) := by
  induction rest generalizing pre with
  | nil => simp [Hash128_loop]
  | cons p rest ih =>
    have hs : (pre.length % 4 + 1) &&& 0x03 = (pre ++ [p]).length % 4 := by
      have := Nat.and_pow_two_sub_one_eq_mod (pre.length % 4 + 1) 2
      simp at this
      rw [this]; simp
    have hst : ((List.range 4).map (specLane pre)).set (pre.length % 4)
        ((((List.range 4).map (specLane pre)).getD (pre.length % 4) 0 * 33 + p.val) % 2 ^ 32)
        = (List.range 4).map (specLane (pre ++ [p])) := by
      have h4 : pre.length % 4 < 4 := Nat.mod_lt _ (by decide)
      simp only [List.range, List.range.loop, List.map, specLane_snoc]
      generalize pre.length % 4 = s at h4
      interval_cases s <;> simp
    rw [Hash128_loop, hs, hst, ih (pre ++ [p])]
    simp

theorem k_hex_getD (n : Nat) (h : n < 16) : k_hex.getD n '0' = specHexChar n := by
  interval_cases n <;> decide

theorem Hash128_eq_specDigest (b : List Byte) : Hash128 b = specDigest b := by
  have h := Hash128_loop_lanes b []
  simp only [List.length_nil, Nat.zero_mod, List.nil_append] at h
  have h0 : (List.range 4).map (specLane []) = [5381, 5381, 5381, 5381] := by decide
  rw [h0] at h
  unfold Hash128 Hash128_out specDigest specDigestBytes
  rw [h]
  congr 1
  have hb : ∀ w : Nat, ([w % 256, w / 256 % 256, w / 65536 % 256, w / 16777216 % 256] : List Nat)
      = (List.range 4).map fun k => w / 256 ^ k % 256 := by
    intro w; simp [List.range, List.range.loop]
  have hx : ∀ o : Nat, o < 256 →
      [k_hex.getD ((o >>> 4) &&& 0x0F) '0', k_hex.getD (o &&& 0x0F) '0']
        = [specHexChar (o / 16), specHexChar (o % 16)] := by
    intro o ho
    have h1 : (o >>> 4) &&& 0x0F = o / 16 := by
      have := Nat.and_pow_two_sub_one_eq_mod (o >>> 4) 4
      simp at this
      rw [this, Nat.shiftRight_eq_div_pow]; omega
    have h2 : o &&& 0x0F = o % 16 := by
      have := Nat.and_pow_two_sub_one_eq_mod o 4
      simpa using this
    rw [h1, h2, k_hex_getD _ (by omega), k_hex_getD _ (by omega)]
  have hlt : ∀ o ∈ ((List.range 4).map (specLane b)).flatMap
      (fun lane => (List.range 4).map fun k => lane / 256 ^ k % 256), o < 256 := by
    intro o ho
    simp only [List.mem_flatMap, List.mem_map] at ho
    obtain ⟨_, _, k, _, rfl⟩ := ho
    exact Nat.mod_lt _ (by decide)
  simp only [hb]
  generalize ((List.range 4).map (specLane b)).flatMap
      (fun lane => (List.range 4).map fun k => lane / 256 ^ k % 256) = xs at hlt
  induction xs with
  | nil => rfl
  | cons x xs ih =>
    simp only [List.flatMap_cons]
    rw [hx x (hlt x (List.mem_cons_self _ _)), ih (fun o ho => hlt o (List.mem_cons_of_mem _ ho))]

theorem hash128_loop_eq (b : List Byte) (state : List Nat) (s : Nat) :
    OpenGL.hash128_loop b state s = Hash128_loop b state s := by
  induction b generalizing state s with
  | nil => rfl
  | cons p rest ih => simp only [OpenGL.hash128_loop, Hash128_loop, ih]

theorem hash128_eq_Hash128 (b : List Byte) : OpenGL.hash128 b = Hash128 b := by
  simp only [OpenGL.hash128, OpenGL.hash128_out, Hash128, Hash128_out, hash128_loop_eq]

theorem specDigest_length (b : List Byte) : (specDigest b).length = 32 := by
  simp [specDigest, specDigestBytes, String.length, List.range, List.range.loop]

theorem specHexChar_mem (n : Nat) (h : n < 16) : specHexChar n ∈ "0123456789ABCDEF".toList := by
  interval_cases n <;> decide

theorem specDigest_chars (b : List Byte) :
    ∀ c ∈ (specDigest b).toList, c ∈ "0123456789ABCDEF".toList := by
  intro c hc
  simp only [specDigest, String.toList, List.mem_flatMap, specDigestBytes, List.mem_map] at hc
  obtain ⟨x, ⟨_, _, k, _, rfl⟩, hc⟩ := hc
  simp only [List.mem_cons, List.mem_singleton, List.not_mem_nil, or_false] at hc
  have hlt : ∀ w : Nat, w % 256 / 16 < 16 := fun w => by omega
  rcases hc with rfl | rfl
  · exact specHexChar_mem _ (hlt _)
  · exact specHexChar_mem _ (Nat.mod_lt _ (by decide))

/-- C1: for every byte sequence, `hash128` of deshade.cpp and `Hash128` of hash.cpp both
return the reference digest of the specification (four lanes from 5381, byte `i` updating
lane `i mod 4` as `(lane * 33 + byte) mod 2^32`, lanes 0..3 least significant byte first,
two upper-case hexadecimal digits per byte with the high nibble first); the result has
exactly 32 characters, all among `0-9A-F`, and the empty input gives
`05150000051500000515000005150000`. -/
theorem digest_refines_reference (b : List Byte) :
    OpenGL.hash128 b = specDigest b ∧ Hash128 b = specDigest b ∧
    (Hash128 b).length = 32 ∧
    (∀ c ∈ (Hash128 b).toList, c ∈ "0123456789ABCDEF".toList) ∧
    OpenGL.hash128 [] = "05150000051500000515000005150000" ∧
    Hash128 [] = "05150000051500000515000005150000" := by
  refine ⟨?_, Hash128_eq_specDigest b, ?_, ?_, by decide, by decide⟩
  · rw [hash128_eq_Hash128, Hash128_eq_specDigest]
  · rw [Hash128_eq_specDigest]; exact specDigest_length b
  · rw [Hash128_eq_specDigest]; exact specDigest_chars b

/-! ## Stage classification of bytecode -/

theorem land_low16 (w : Nat) : w &&& 0x0000FFFF = w % 2 ^ 16 := by
  have := Nat.and_pow_two_sub_one_eq_mod w 16
  simpa using this

/-- The word count decoded by the source line is 0 for every token: the cast to `uint16_t`
keeps the low half of the masked token, which the mask has cleared. -/
theorem decoded_length (token : Nat) :
    (((token &&& 0xFFFF0000) % 2 ^ 16) >>> 16) % 2 ^ 16 = 0 := by
  have h : (token &&& 0xFFFF0000) % 2 ^ 16 < 2 ^ 16 := Nat.mod_lt _ (by decide)
  rw [Nat.shiftRight_eq_div_pow, Nat.div_eq_of_lt h]
  rfl

/-- The turn counter of the scan loop never runs out: any two counters of at least
`end_ - pos` give the same result. -/
theorem GetExecutionModel_loop_fuel (code : Nat → Nat) (end_ : Nat) (fuel fuel' pos : Nat)
    (h : end_ - pos ≤ fuel) (h' : end_ - pos ≤ fuel') :
    Vulkan.GetExecutionModel_loop code end_ fuel pos =
      Vulkan.GetExecutionModel_loop code end_ fuel' pos := by
  induction fuel generalizing fuel' pos with
  | zero =>
    have hge : ¬ pos < end_ := by omega
    cases fuel' with
    | zero => rfl
    | succ f' => simp only [Vulkan.GetExecutionModel_loop, hge, if_false]
  | succ f ih =>
    cases fuel' with
    | zero =>
      have hge : ¬ pos < end_ := by omega
      simp only [Vulkan.GetExecutionModel_loop, hge, if_false]
    | succ f' =>
      by_cases hlt : pos < end_
      · have step := ih f' (pos + 1) (by omega) (by omega)
        simp only [Vulkan.GetExecutionModel_loop, hlt, if_true, decoded_length, step]
      · simp only [Vulkan.GetExecutionModel_loop, hlt, if_false]

theorem GetExecutionModel_first (code : Nat → Nat) (end_ : Nat) (h : 5 < end_)
    (hmagic : code 0 = 0x07230203) (hop : code 5 % 2 ^ 16 = 15) (hm : code 6 ≤ 5) :
    Vulkan.GetExecutionModel code end_ =
      [Vulkan.ExecutionModel.Vertex, Vulkan.ExecutionModel.TessellationControl,
       Vulkan.ExecutionModel.TessellationEvaluation, Vulkan.ExecutionModel.Geometry,
       Vulkan.ExecutionModel.Fragment, Vulkan.ExecutionModel.Kernel].getD (code 6)
        Vulkan.ExecutionModel.Unknown := by
  obtain ⟨n, hn⟩ : ∃ n, end_ - 5 = n + 1 := ⟨end_ - 6, by omega⟩
  have hop' : code 5 &&& 0x0000FFFF = 15 := by rw [land_low16]; exact hop
  unfold Vulkan.GetExecutionModel
  rw [if_pos hmagic, hn, Vulkan.GetExecutionModel_loop]
  simp only [h, if_true, hop']
  generalize code 6 = m at hm
  interval_cases m <;> simp

/-- C6: for every word buffer `[code, end)` of at least 7 words whose word 0 is the magic
`0x07230203`, whose word 5 has 15 in its low 16 bits and whose word 6 is the model code,
`GetExecutionModel` returns Vertex, TessellationControl, TessellationEvaluation, Geometry,
Fragment, Kernel for the codes 0, 1, 2, 3, 4, 5; in particular code 4 gives Fragment. -/
theorem stage_table_of_first_entry_point (code : Nat → Nat) (end_ : Nat) (hlen : 7 ≤ end_)
    (hmagic : code 0 = 0x07230203) (hop : code 5 % 2 ^ 16 = 15) :
    (code 6 = 0 → Vulkan.GetExecutionModel code end_ = Vulkan.ExecutionModel.Vertex) ∧
    (code 6 = 1 →
      Vulkan.GetExecutionModel code end_ = Vulkan.ExecutionModel.TessellationControl) ∧
    (code 6 = 2 →
      Vulkan.GetExecutionModel code end_ = Vulkan.ExecutionModel.TessellationEvaluation) ∧
    (code 6 = 3 → Vulkan.GetExecutionModel code end_ = Vulkan.ExecutionModel.Geometry) ∧
    (code 6 = 4 → Vulkan.GetExecutionModel code end_ = Vulkan.ExecutionModel.Fragment) ∧
    (code 6 = 5 → Vulkan.GetExecutionModel code end_ = Vulkan.ExecutionModel.Kernel) := by
  have key := fun hm => GetExecutionModel_first code end_ (by omega) hmagic hop hm
  refine ⟨?_, ?_, ?_, ?_, ?_, ?_⟩ <;> intro h6 <;> rw [key (by omega), h6] <;> rfl

theorem stage_table_of_first_entry_point_witness :
    Vulkan.GetExecutionModel fragmentModule 7 = Vulkan.ExecutionModel.Fragment :=
  (stage_table_of_first_entry_point fragmentModule 7 (by decide) (by decide)
    (by decide)).2.2.2.2.1 (by decide)

theorem GetExecutionModel_no_magic (code : Nat → Nat) (end_ : Nat)
    (hmagic : code 0 ≠ 0x07230203) :
    Vulkan.GetExecutionModel code end_ = Vulkan.ExecutionModel.Unknown := by
  unfold Vulkan.GetExecutionModel
  rw [if_neg hmagic]

/-- C7: for every non-empty word buffer whose first word is not `0x07230203`,
`GetExecutionModel` returns Unknown whatever the other words are, and for a submitted
buffer of at least one word with such a first word the cache path built by
`deshade_vkCreateShaderModule` is `"shaders/"` followed by the digest, with nothing
behind it. -/
theorem no_magic_is_unknown :
    (∀ (code : Nat → Nat) (end_ : Nat), 0 < end_ → code 0 ≠ 0x07230203 →
      Vulkan.GetExecutionModel code end_ = Vulkan.ExecutionModel.Unknown) ∧
    (∀ (pCode : Nat → Byte) (codeSize : Nat), 4 ≤ codeSize →
      Vulkan.loadWord pCode 0 ≠ 0x07230203 →
      Vulkan.modelOf pCode codeSize = Vulkan.ExecutionModel.Unknown ∧
      Vulkan.file_name pCode codeSize =
        "shaders/" ++ Hash128 (Vulkan.submitted pCode codeSize)) := by
  refine ⟨fun code end_ _ h => GetExecutionModel_no_magic code end_ h, ?_⟩
  intro pCode codeSize _ h
  have hm : Vulkan.modelOf pCode codeSize = Vulkan.ExecutionModel.Unknown :=
    GetExecutionModel_no_magic _ _ h
  refine ⟨hm, ?_⟩
  rw [Vulkan.file_name, hm]
  simp [Vulkan.GetShaderExtensionString]

theorem no_magic_is_unknown_witness :
    Vulkan.GetExecutionModel (Vulkan.loadWord notAModule) 8 = Vulkan.ExecutionModel.Unknown ∧
    (Vulkan.modelOf notAModule 32 = Vulkan.ExecutionModel.Unknown ∧
      Vulkan.file_name notAModule 32 = "shaders/" ++ Hash128 (Vulkan.submitted notAModule 32)) :=
  ⟨no_magic_is_unknown.1 (Vulkan.loadWord notAModule) 8 (by decide) (by decide),
   no_magic_is_unknown.2 notAModule 32 (by decide) (by decide)⟩

/-! ## The content-addressed cache -/

theorem submitted_length (pCode : Nat → Byte) (codeSize : Nat) :
    (Vulkan.submitted pCode codeSize).length = codeSize := by
  simp [Vulkan.submitted]

theorem CreateShaderModule_replace (env : Vulkan.NextLayer) (st : Vulkan.State) (device : Nat)
    (pCode : Nat → Byte) (codeSize : Nat) (table : Vulkan.VkLayerDispatchTable)
    (data : List Byte)
    (hfind : umap_find st.context.device_dispatch_ (Vulkan.DispatchKey st.memory device)
      = some table)
    (h : st.fs.ifstream (Vulkan.file_name pCode codeSize) = some data) :
    (Vulkan.deshade_vkCreateShaderModule env st device pCode codeSize).1 =
        env.CreateShaderModule table.CreateShaderModule device data ∧
      (Vulkan.deshade_vkCreateShaderModule env st device pCode codeSize).2.calls =
        st.calls ++ [Vulkan.Call.CreateShaderModule table.CreateShaderModule device
          data.length data] ∧
      (Vulkan.deshade_vkCreateShaderModule env st device pCode codeSize).2.fs = st.fs ∧
      (Vulkan.deshade_vkCreateShaderModule env st device pCode codeSize).2.fsOps =
        st.fsOps ++ [FsOp.openRead (Vulkan.file_name pCode codeSize)] ∧
      (Vulkan.deshade_vkCreateShaderModule env st device pCode codeSize).2.context =
        st.context ∧
      (Vulkan.deshade_vkCreateShaderModule env st device pCode codeSize).2.memory =
        st.memory := by
  simp [Vulkan.deshade_vkCreateShaderModule, hfind, h, Vulkan.forward, Vulkan.State.log]

theorem CreateShaderModule_capture (env : Vulkan.NextLayer) (st : Vulkan.State) (device : Nat)
    (pCode : Nat → Byte) (codeSize : Nat) (table : Vulkan.VkLayerDispatchTable)
    (hfind : umap_find st.context.device_dispatch_ (Vulkan.DispatchKey st.memory device)
      = some table)
    (h : st.fs.ifstream (Vulkan.file_name pCode codeSize) = none) :
    (Vulkan.deshade_vkCreateShaderModule env st device pCode codeSize).1 =
        env.CreateShaderModule table.CreateShaderModule device
          (Vulkan.submitted pCode codeSize) ∧
      (Vulkan.deshade_vkCreateShaderModule env st device pCode codeSize).2.calls =
        st.calls ++ [Vulkan.Call.CreateShaderModule table.CreateShaderModule device
          codeSize (Vulkan.submitted pCode codeSize)] ∧
      (Vulkan.deshade_vkCreateShaderModule env st device pCode codeSize).2.fsOps =
        st.fsOps ++ [FsOp.openRead (Vulkan.file_name pCode codeSize),
          FsOp.openWrite (Vulkan.file_name pCode codeSize)] ∧
      (Vulkan.deshade_vkCreateShaderModule env st device pCode codeSize).2.context =
        st.context ∧
      (Vulkan.deshade_vkCreateShaderModule env st device pCode codeSize).2.memory =
        st.memory ∧
      (st.fs.creatable (Vulkan.file_name pCode codeSize) = false →
        (Vulkan.deshade_vkCreateShaderModule env st device pCode codeSize).2.fs = st.fs) ∧
      (st.fs.creatable (Vulkan.file_name pCode codeSize) = true →
        (Vulkan.deshade_vkCreateShaderModule env st device pCode codeSize).2.fs.creatable =
          st.fs.creatable ∧
        ∀ p, (Vulkan.deshade_vkCreateShaderModule env st device pCode codeSize).2.fs.files p =
          if p = Vulkan.file_name pCode codeSize then some (Vulkan.submitted pCode codeSize)
          else st.fs.files p) := by
  cases hc : st.fs.creatable (Vulkan.file_name pCode codeSize) <;>
  simp [Vulkan.deshade_vkCreateShaderModule, hfind, h, hc, Vulkan.forward, Vulkan.State.log,
    FileSystem.ofstream, submitted_length]

theorem concatenate_loop_negative (string : Nat → List Byte) (len : Nat → Int) (is : List Nat)
    (acc : List Byte) (h : ∃ i ∈ is, len i < 0) :
    OpenGL.concatenate_loop string (some len) is acc = none := by
  induction is generalizing acc with
  | nil => obtain ⟨i, hi, _⟩ := h; simp at hi
  | cons i rest ih =>
    by_cases hi : len i < 0
    · simp only [OpenGL.concatenate_loop, OpenGL.fragment, hi, if_true]
    · simp only [OpenGL.concatenate_loop, OpenGL.fragment, hi, if_false]
      apply ih
      obtain ⟨j, hj, hneg⟩ := h
      rcases List.mem_cons.mp hj with rfl | hj'
      · exact absurd hneg hi
      · exact ⟨j, hj', hneg⟩

/-- A negative entry of the length array among the first `count` makes the exception
leave `ShaderSource` before any file is opened and before any call of the driver. -/
theorem ShaderSource_throws (st : OpenGL.State) (shader : Nat) (count : Int)
    (string : Nat → List Byte) (len : Nat → Int) (i : Nat) (hi : i < count.toNat)
    (hneg : len i < 0) :
    OpenGL.ShaderSource st shader count string (some len) = none := by
  have := concatenate_loop_negative string len (List.range count.toNat) []
    ⟨i, List.mem_range.mpr hi, hneg⟩
  simp only [OpenGL.ShaderSource, OpenGL.concatenate, this]

theorem umap_find_erase_self {β : Type} (m : List (Nat × β)) (k : Nat) :
    umap_find (umap_erase m k) k = none := by
  induction m with
  | nil => rfl
  | cons p m ih =>
    obtain ⟨k0, v⟩ := p
    by_cases h : k0 = k
    · simp only [umap_erase, h, if_true, ih]
    · simp only [umap_erase, h, if_false, umap_find, ih]

theorem umap_find_erase_ne {β : Type} (m : List (Nat × β)) (k k' : Nat) (hne : k' ≠ k) :
    umap_find (umap_erase m k) k' = umap_find m k' := by
  induction m with
  | nil => rfl
  | cons p m ih =>
    obtain ⟨k0, v⟩ := p
    by_cases h : k0 = k
    · have h' : k0 ≠ k' := fun e => hne (e ▸ h)
      simp only [umap_erase, h, if_true, ih]
      simp only [umap_find, ← h, h', if_false]
    · by_cases h2 : k0 = k'
      · subst h2
        simp only [umap_erase, h, if_false, umap_find, if_true]
      · simp only [umap_erase, h, if_false, umap_find, h2, ih]

theorem umap_find_insert_ne {β : Type} (m : List (Nat × β)) (k k' : Nat) (v : β)
    (hne : k ≠ k') : umap_find (umap_insert m k v) k' = umap_find m k' := by
  unfold umap_insert
  cases umap_find m k with
  | some _ => rfl
  | none => simp only [umap_find, hne, if_false]

theorem CreateInstance_keeps_miss (env : Vulkan.NextLayer) (st : Vulkan.State)
    (chain : List Vulkan.VkLayerInstanceCreateInfo) (k : Nat) (r : Vulkan.VkResult)
    (h : Option Nat) (st' : Vulkan.State)
    (hmiss : umap_find st.context.instance_dispatch_ k = none)
    (hrun : Vulkan.deshade_vkCreateInstance env st chain = some (r, h, st'))
    (hne : ∀ handle, h = some handle → Vulkan.DispatchKey st'.memory handle ≠ k) :
    umap_find st'.context.instance_dispatch_ k = none ∧
      st'.context.device_dispatch_ = st.context.device_dispatch_ := by
  unfold Vulkan.deshade_vkCreateInstance at hrun
  simp only at hrun
  split at hrun
  · simp only [Option.some.injEq, Prod.mk.injEq] at hrun
    obtain ⟨_, _, rfl⟩ := hrun
    exact ⟨hmiss, rfl⟩
  · split at hrun
    · exact absurd hrun (by simp)
    · split at hrun
      · simp only [Option.some.injEq, Prod.mk.injEq] at hrun
        obtain ⟨_, _, rfl⟩ := hrun
        exact ⟨hmiss, rfl⟩
      · simp only [Option.some.injEq, Prod.mk.injEq] at hrun
        obtain ⟨_, rfl, rfl⟩ := hrun
        refine ⟨?_, rfl⟩
        have := hne _ rfl
        simp only at this ⊢
        rw [umap_find_insert_ne _ _ _ _ this]
        exact hmiss

theorem CreateDevice_keeps_miss (env : Vulkan.NextLayer) (st : Vulkan.State)
    (physicalDevice : Nat) (chain : List Vulkan.VkLayerDeviceCreateInfo) (k : Nat)
    (r : Vulkan.VkResult) (h : Option Nat) (st' : Vulkan.State)
    (hmiss : umap_find st.context.device_dispatch_ k = none)
    (hrun : Vulkan.deshade_vkCreateDevice env st physicalDevice chain = some (r, h, st'))
    (hne : ∀ handle, h = some handle → Vulkan.DispatchKey st'.memory handle ≠ k) :
    umap_find st'.context.device_dispatch_ k = none ∧
      st'.context.instance_dispatch_ = st.context.instance_dispatch_ := by
  unfold Vulkan.deshade_vkCreateDevice at hrun
  simp only at hrun
  split at hrun
  · simp only [Option.some.injEq, Prod.mk.injEq] at hrun
    obtain ⟨_, _, rfl⟩ := hrun
    exact ⟨hmiss, rfl⟩
  · split at hrun
    · exact absurd hrun (by simp)
    · split at hrun
      · simp only [Option.some.injEq, Prod.mk.injEq] at hrun
        obtain ⟨_, _, rfl⟩ := hrun
        exact ⟨hmiss, rfl⟩
      · simp only [Option.some.injEq, Prod.mk.injEq] at hrun
        obtain ⟨_, rfl, rfl⟩ := hrun
        refine ⟨?_, rfl⟩
        have := hne _ rfl
        simp only at this ⊢
        rw [umap_find_insert_ne _ _ _ _ this]
        exact hmiss

/-- C8: dispatch lifecycle. After `deshade_vkDestroyInstance` (resp.
`deshade_vkDestroyDevice`) on an object whose `DispatchKey` is `k`, looking `k` up in
`instance_dispatch_` (resp. `device_dispatch_`) is a miss, every other key finds what it
found before, and the other map is untouched; a creation that follows and whose new
object (at whatever address, the old one included) has a `DispatchKey` different from
`k` leaves the lookup of `k` a miss. -/
theorem destroy_unregisters (st : Vulkan.State) (handle : Nat) :
    (umap_find (Vulkan.deshade_vkDestroyInstance st handle).context.instance_dispatch_
        (Vulkan.DispatchKey st.memory handle) = none ∧
      (∀ k', k' ≠ Vulkan.DispatchKey st.memory handle →
        umap_find (Vulkan.deshade_vkDestroyInstance st handle).context.instance_dispatch_ k' =
          umap_find st.context.instance_dispatch_ k') ∧
      (Vulkan.deshade_vkDestroyInstance st handle).context.device_dispatch_ =
        st.context.device_dispatch_ ∧
      (∀ (env : Vulkan.NextLayer) (chain : List Vulkan.VkLayerInstanceCreateInfo)
          (r : Vulkan.VkResult) (created : Option Nat) (st' : Vulkan.State),
        Vulkan.deshade_vkCreateInstance env (Vulkan.deshade_vkDestroyInstance st handle) chain =
          some (r, created, st') →
        (∀ h, created = some h →
          Vulkan.DispatchKey st'.memory h ≠ Vulkan.DispatchKey st.memory handle) →
        umap_find st'.context.instance_dispatch_ (Vulkan.DispatchKey st.memory handle) = none)) ∧
    (umap_find (Vulkan.deshade_vkDestroyDevice st handle).context.device_dispatch_
        (Vulkan.DispatchKey st.memory handle) = none ∧
      (∀ k', k' ≠ Vulkan.DispatchKey st.memory handle →
        umap_find (Vulkan.deshade_vkDestroyDevice st handle).context.device_dispatch_ k' =
          umap_find st.context.device_dispatch_ k') ∧
      (Vulkan.deshade_vkDestroyDevice st handle).context.instance_dispatch_ =
        st.context.instance_dispatch_ ∧
      (∀ (env : Vulkan.NextLayer) (physicalDevice : Nat)
          (chain : List Vulkan.VkLayerDeviceCreateInfo)
          (r : Vulkan.VkResult) (created : Option Nat) (st' : Vulkan.State),
        Vulkan.deshade_vkCreateDevice env (Vulkan.deshade_vkDestroyDevice st handle)
          physicalDevice chain = some (r, created, st') →
        (∀ h, created = some h →
          Vulkan.DispatchKey st'.memory h ≠ Vulkan.DispatchKey st.memory handle) →
        umap_find st'.context.device_dispatch_ (Vulkan.DispatchKey st.memory handle) = none)) := by
  refine ⟨⟨umap_find_erase_self _ _, fun k' hk => umap_find_erase_ne _ _ _ hk, rfl, ?_⟩,
    ⟨umap_find_erase_self _ _, fun k' hk => umap_find_erase_ne _ _ _ hk, rfl, ?_⟩⟩
  · intro env chain r created st' hrun hne
    exact (CreateInstance_keeps_miss env _ chain _ r created st'
      (umap_find_erase_self _ _) hrun hne).1
  · intro env physicalDevice chain r created st' hrun hne
    exact (CreateDevice_keeps_miss env _ physicalDevice chain _ r created st'
      (umap_find_erase_self _ _) hrun hne).1

theorem destroy_unregisters_witness :
    umap_find (registered (fun _ => none) true).context.instance_dispatch_
        (Vulkan.DispatchKey (registered (fun _ => none) true).memory 5000) =
      some { GetInstanceProcAddr := 21, DestroyInstance := 22,
             EnumerateDeviceExtensionProperties := 23 } ∧
    (∃ st', Vulkan.deshade_vkCreateInstance (sampleLayer 0 200)
          (Vulkan.deshade_vkDestroyInstance (registered (fun _ => none) true) 5000)
          instanceChain = some (Vulkan.VK_SUCCESS, some 5000, st') ∧
        Vulkan.DispatchKey st'.memory 5000 = 200 ∧
        umap_find st'.context.instance_dispatch_
          (Vulkan.DispatchKey (registered (fun _ => none) true).memory 5000) = none) ∧
    (∃ st', Vulkan.deshade_vkCreateDevice (sampleLayer 0 200)
          (Vulkan.deshade_vkDestroyDevice (registered (fun _ => none) true) 5008) 9
          deviceChain = some (Vulkan.VK_SUCCESS, some 5008, st') ∧
        Vulkan.DispatchKey st'.memory 5008 = 200 ∧
        umap_find st'.context.device_dispatch_
          (Vulkan.DispatchKey (registered (fun _ => none) true).memory 5008) = none) :=
  ⟨by decide,
   ⟨_, rfl, rfl,
    (destroy_unregisters (registered (fun _ => none) true) 5000).1.2.2.2 (sampleLayer 0 200)
      instanceChain Vulkan.VK_SUCCESS (some 5000) _ rfl
      (fun h hh => by cases hh; decide)⟩,
   ⟨_, rfl, rfl,
    (destroy_unregisters (registered (fun _ => none) true) 5008).2.2.2.2 (sampleLayer 0 200) 9
      deviceChain Vulkan.VK_SUCCESS (some 5008) _ rfl
      (fun h hh => by cases hh; decide)⟩⟩

theorem dropWhile_all {α : Type} (p : α → Bool) (l : List α) (h : ∀ r ∈ l, p r = true) :
    l.dropWhile p = [] := by
  induction l with
  | nil => rfl
  | cons x l ih =>
    rw [List.dropWhile_cons, if_pos (h x (List.mem_cons_self _ _))]
    exact ih fun r hr => h r (List.mem_cons_of_mem _ hr)

theorem span_at_first {α : Type} (p : α → Bool) (skipped rest : List α) (x : α)
    (hs : ∀ r ∈ skipped, p r = true) (hx : p x = false) :
    (skipped ++ x :: rest).takeWhile p = skipped ∧
      (skipped ++ x :: rest).dropWhile p = x :: rest := by
  induction skipped with
  | nil => simp [List.takeWhile_cons, List.dropWhile_cons, hx]
  | cons y l ih =>
    have hy := hs y (List.mem_cons_self _ _)
    have ih' := ih fun r hr => hs r (List.mem_cons_of_mem _ hr)
    simp [List.takeWhile_cons, List.dropWhile_cons, hy, ih'.1, ih'.2]

/-- C9: creation failure registers nothing. (a) When no record of the chain has both the
loader structure type and the function `VK_LAYER_LINK_INFO`, `deshade_vkCreateInstance`
and `deshade_vkCreateDevice` return `VK_ERROR_INITIALIZATION_FAILED` and leave the whole
state as it was: no call left the layer and both maps are unchanged. (b) When the first
such record carries a link and the real creation function obtained through it returns
anything other than `VK_SUCCESS`, they return `VK_ERROR_INITIALIZATION_FAILED` and both
maps are unchanged. -/
theorem failed_creation_registers_nothing :
    (∀ (env : Vulkan.NextLayer) (st : Vulkan.State)
        (chain : List Vulkan.VkLayerInstanceCreateInfo),
      (∀ r ∈ chain, ¬ (r.sType = Vulkan.VK_STRUCTURE_TYPE_LOADER_INSTANCE_CREATE_INFO ∧
        r.function = Vulkan.VK_LAYER_LINK_INFO)) →
      Vulkan.deshade_vkCreateInstance env st chain =
        some (Vulkan.VK_ERROR_INITIALIZATION_FAILED, none, st)) ∧
    (∀ (env : Vulkan.NextLayer) (st : Vulkan.State) (physicalDevice : Nat)
        (chain : List Vulkan.VkLayerDeviceCreateInfo),
      (∀ r ∈ chain, ¬ (r.sType = Vulkan.VK_STRUCTURE_TYPE_LOADER_DEVICE_CREATE_INFO ∧
        r.function = Vulkan.VK_LAYER_LINK_INFO)) →
      Vulkan.deshade_vkCreateDevice env st physicalDevice chain =
        some (Vulkan.VK_ERROR_INITIALIZATION_FAILED, none, st)) ∧
    (∀ (env : Vulkan.NextLayer) (st : Vulkan.State)
        (skipped rest : List Vulkan.VkLayerInstanceCreateInfo)
        (info : Vulkan.VkLayerInstanceCreateInfo) (link : Vulkan.VkLayerInstanceLink)
        (pNext : List Vulkan.VkLayerInstanceLink),
      (∀ r ∈ skipped, ¬ (r.sType = Vulkan.VK_STRUCTURE_TYPE_LOADER_INSTANCE_CREATE_INFO ∧
        r.function = Vulkan.VK_LAYER_LINK_INFO)) →
      info.sType = Vulkan.VK_STRUCTURE_TYPE_LOADER_INSTANCE_CREATE_INFO →
      info.function = Vulkan.VK_LAYER_LINK_INFO →
      info.pLayerInfo = link :: pNext →
      (env.CreateInstance
        (env.GetInstanceProcAddr link.pfnNextGetInstanceProcAddr 0 "vkCreateInstance")
        (skipped ++ { info with pLayerInfo := pNext } :: rest) st.memory).result ≠
          Vulkan.VK_SUCCESS →
      ∃ created st', Vulkan.deshade_vkCreateInstance env st (skipped ++ info :: rest) =
          some (Vulkan.VK_ERROR_INITIALIZATION_FAILED, created, st') ∧
        st'.context = st.context) ∧
    (∀ (env : Vulkan.NextLayer) (st : Vulkan.State) (physicalDevice : Nat)
        (skipped rest : List Vulkan.VkLayerDeviceCreateInfo)
        (info : Vulkan.VkLayerDeviceCreateInfo) (link : Vulkan.VkLayerDeviceLink)
        (pNext : List Vulkan.VkLayerDeviceLink),
      (∀ r ∈ skipped, ¬ (r.sType = Vulkan.VK_STRUCTURE_TYPE_LOADER_DEVICE_CREATE_INFO ∧
        r.function = Vulkan.VK_LAYER_LINK_INFO)) →
      info.sType = Vulkan.VK_STRUCTURE_TYPE_LOADER_DEVICE_CREATE_INFO →
      info.function = Vulkan.VK_LAYER_LINK_INFO →
      info.pLayerInfo = link :: pNext →
      (env.CreateDevice
        (env.GetInstanceProcAddr link.pfnNextGetInstanceProcAddr 0 "vkCreateDevice")
        physicalDevice (skipped ++ { info with pLayerInfo := pNext } :: rest) st.memory).result ≠
          Vulkan.VK_SUCCESS →
      ∃ created st', Vulkan.deshade_vkCreateDevice env st physicalDevice
          (skipped ++ info :: rest) =
          some (Vulkan.VK_ERROR_INITIALIZATION_FAILED, created, st') ∧
        st'.context = st.context) := by
  refine ⟨?_, ?_, ?_, ?_⟩
  · intro env st chain h
    have hd := dropWhile_all (fun r : Vulkan.VkLayerInstanceCreateInfo =>
      decide (r.sType ≠ Vulkan.VK_STRUCTURE_TYPE_LOADER_INSTANCE_CREATE_INFO ∨
        r.function ≠ Vulkan.VK_LAYER_LINK_INFO)) chain
      (fun r hr => by have := h r hr; simp only [decide_eq_true_eq]; tauto)
    simp only [Vulkan.deshade_vkCreateInstance, hd]
  · intro env st physicalDevice chain h
    have hd := dropWhile_all (fun r : Vulkan.VkLayerDeviceCreateInfo =>
      decide (r.sType ≠ Vulkan.VK_STRUCTURE_TYPE_LOADER_DEVICE_CREATE_INFO ∨
        r.function ≠ Vulkan.VK_LAYER_LINK_INFO)) chain
      (fun r hr => by have := h r hr; simp only [decide_eq_true_eq]; tauto)
    simp only [Vulkan.deshade_vkCreateDevice, hd]
  · intro env st skipped rest info link pNext hs h1 h2 h3 hfail
    have hsp := span_at_first (fun r : Vulkan.VkLayerInstanceCreateInfo =>
      decide (r.sType ≠ Vulkan.VK_STRUCTURE_TYPE_LOADER_INSTANCE_CREATE_INFO ∨
        r.function ≠ Vulkan.VK_LAYER_LINK_INFO)) skipped rest info
      (fun r hr => by have := hs r hr; simp only [decide_eq_true_eq]; tauto)
      (by simp [h1, h2])
    simp only [Vulkan.deshade_vkCreateInstance, hsp.1, hsp.2, h3, hfail, ne_eq, not_false_eq_true,
      if_true]
    exact ⟨_, _, rfl, rfl⟩
  · intro env st physicalDevice skipped rest info link pNext hs h1 h2 h3 hfail
    have hsp := span_at_first (fun r : Vulkan.VkLayerDeviceCreateInfo =>
      decide (r.sType ≠ Vulkan.VK_STRUCTURE_TYPE_LOADER_DEVICE_CREATE_INFO ∨
        r.function ≠ Vulkan.VK_LAYER_LINK_INFO)) skipped rest info
      (fun r hr => by have := hs r hr; simp only [decide_eq_true_eq]; tauto)
      (by simp [h1, h2])
    simp only [Vulkan.deshade_vkCreateDevice, hsp.1, hsp.2, h3, hfail, ne_eq, not_false_eq_true,
      if_true]
    exact ⟨_, _, rfl, rfl⟩

theorem failed_creation_registers_nothing_witness :
    Vulkan.deshade_vkCreateInstance (sampleLayer 0 200) (registered (fun _ => none) true)
        noLinkInstanceChain =
      some (Vulkan.VK_ERROR_INITIALIZATION_FAILED, none, registered (fun _ => none) true) ∧
    Vulkan.deshade_vkCreateDevice (sampleLayer 0 200) (registered (fun _ => none) true) 9
        noLinkDeviceChain =
      some (Vulkan.VK_ERROR_INITIALIZATION_FAILED, none, registered (fun _ => none) true) ∧
    (∃ created st', Vulkan.deshade_vkCreateInstance (sampleLayer (-1) 200)
          (registered (fun _ => none) true)
          ([{ sType := 1000011000, function := 7, pLayerInfo := [] }] ++
            { sType := Vulkan.VK_STRUCTURE_TYPE_LOADER_INSTANCE_CREATE_INFO,
              function := Vulkan.VK_LAYER_LINK_INFO,
              pLayerInfo := [{ pfnNextGetInstanceProcAddr := 77 }] } :: []) =
          some (Vulkan.VK_ERROR_INITIALIZATION_FAILED, created, st') ∧
        st'.context = (registered (fun _ => none) true).context) ∧
    (∃ created st', Vulkan.deshade_vkCreateDevice (sampleLayer (-1) 200)
          (registered (fun _ => none) true) 9
          ([{ sType := 1000011000, function := 7, pLayerInfo := [] }] ++
            { sType := Vulkan.VK_STRUCTURE_TYPE_LOADER_DEVICE_CREATE_INFO,
              function := Vulkan.VK_LAYER_LINK_INFO,
              pLayerInfo := [{ pfnNextGetInstanceProcAddr := 77,
                               pfnNextGetDeviceProcAddr := 78 }] } :: []) =
          some (Vulkan.VK_ERROR_INITIALIZATION_FAILED, created, st') ∧
        st'.context = (registered (fun _ => none) true).context) :=
  ⟨failed_creation_registers_nothing.1 (sampleLayer 0 200) (registered (fun _ => none) true)
      noLinkInstanceChain (by decide),
   failed_creation_registers_nothing.2.1 (sampleLayer 0 200) (registered (fun _ => none) true) 9
      noLinkDeviceChain (by decide),
   failed_creation_registers_nothing.2.2.1 (sampleLayer (-1) 200)
      (registered (fun _ => none) true)
      [{ sType := 1000011000, function := 7, pLayerInfo := [] }] []
      { sType := Vulkan.VK_STRUCTURE_TYPE_LOADER_INSTANCE_CREATE_INFO,
        function := Vulkan.VK_LAYER_LINK_INFO,
        pLayerInfo := [{ pfnNextGetInstanceProcAddr := 77 }] }
      { pfnNextGetInstanceProcAddr := 77 } [] (by decide) rfl rfl rfl (by decide),
   failed_creation_registers_nothing.2.2.2 (sampleLayer (-1) 200)
      (registered (fun _ => none) true) 9
      [{ sType := 1000011000, function := 7, pLayerInfo := [] }] []
      { sType := Vulkan.VK_STRUCTURE_TYPE_LOADER_DEVICE_CREATE_INFO,
        function := Vulkan.VK_LAYER_LINK_INFO,
        pLayerInfo := [{ pfnNextGetInstanceProcAddr := 77, pfnNextGetDeviceProcAddr := 78 }] }
      { pfnNextGetInstanceProcAddr := 77, pfnNextGetDeviceProcAddr := 78 } []
      (by decide) rfl rfl rfl (by decide)⟩

/-- C10: identity miss on shader-module creation. For a device whose `DispatchKey` has
no record in `device_dispatch_`, `deshade_vkCreateShaderModule` returns
`VK_ERROR_DEVICE_LOST` and leaves the whole state as it was: no call left the layer, no
file was opened or written and the registry is unchanged. When a record exists, exactly
one call leaves the layer, to the `CreateShaderModule` of that record, and what the entry
point returns is the result of that call; the registry is unchanged. -/
theorem shader_module_needs_record :
    (∀ (env : Vulkan.NextLayer) (st : Vulkan.State) (device : Nat) (pCode : Nat → Byte)
        (codeSize : Nat),
      umap_find st.context.device_dispatch_ (Vulkan.DispatchKey st.memory device) = none →
      Vulkan.deshade_vkCreateShaderModule env st device pCode codeSize =
        (Vulkan.VK_ERROR_DEVICE_LOST, st)) ∧
    (∀ (env : Vulkan.NextLayer) (st : Vulkan.State) (device : Nat) (pCode : Nat → Byte)
        (codeSize : Nat) (table : Vulkan.VkLayerDispatchTable),
      umap_find st.context.device_dispatch_ (Vulkan.DispatchKey st.memory device) = some table →
      ∃ contents,
        (Vulkan.deshade_vkCreateShaderModule env st device pCode codeSize).1 =
          env.CreateShaderModule table.CreateShaderModule device contents ∧
        (Vulkan.deshade_vkCreateShaderModule env st device pCode codeSize).2.calls =
          st.calls ++ [Vulkan.Call.CreateShaderModule table.CreateShaderModule device
            contents.length contents] ∧
        (Vulkan.deshade_vkCreateShaderModule env st device pCode codeSize).2.context =
          st.context) := by
  constructor
  · intro env st device pCode codeSize hfind
    simp only [Vulkan.deshade_vkCreateShaderModule, hfind]
  · intro env st device pCode codeSize table hfind
    cases h : st.fs.ifstream (Vulkan.file_name pCode codeSize) with
    | none =>
      obtain ⟨h1, h2, _, h4, _⟩ :=
        CreateShaderModule_capture env st device pCode codeSize table hfind h
      exact ⟨Vulkan.submitted pCode codeSize, h1, by rw [h2, submitted_length], h4⟩
    | some data =>
      obtain ⟨h1, h2, _, _, h5, _⟩ :=
        CreateShaderModule_replace env st device pCode codeSize table data hfind h
      exact ⟨data, h1, h2, h5⟩

theorem shader_module_needs_record_witness :
    Vulkan.deshade_vkCreateShaderModule (sampleLayer 0 0) (registered cachedFragmentModule true)
        7777 fragmentModuleBytes 28 =
      (Vulkan.VK_ERROR_DEVICE_LOST, registered cachedFragmentModule true) ∧
    (∃ contents,
      (Vulkan.deshade_vkCreateShaderModule (sampleLayer 0 0)
          (registered cachedFragmentModule true) 5008 fragmentModuleBytes 28).1 =
        (sampleLayer 0 0).CreateShaderModule 33 5008 contents ∧
      (Vulkan.deshade_vkCreateShaderModule (sampleLayer 0 0)
          (registered cachedFragmentModule true) 5008 fragmentModuleBytes 28).2.calls =
        (registered cachedFragmentModule true).calls ++
          [Vulkan.Call.CreateShaderModule 33 5008 contents.length contents] ∧
      (Vulkan.deshade_vkCreateShaderModule (sampleLayer 0 0)
          (registered cachedFragmentModule true) 5008 fragmentModuleBytes 28).2.context =
        (registered cachedFragmentModule true).context) :=
  ⟨shader_module_needs_record.1 (sampleLayer 0 0) (registered cachedFragmentModule true) 7777
      fragmentModuleBytes 28 (by decide),
   shader_module_needs_record.2 (sampleLayer 0 0) (registered cachedFragmentModule true) 5008
      fragmentModuleBytes 28
      { GetDeviceProcAddr := 31, DestroyDevice := 32, CreateShaderModule := 33 } (by decide)⟩

/-! ## The bytecode scanner on whole modules -/

/-- One turn of the scan loop that does not return moves on by exactly one word, whatever
the upper half of the token holds. -/
theorem GetExecutionModel_loop_step (code : Nat → Nat) (end_ fuel pos : Nat)
    (hlt : pos < end_) (hop : code pos &&& 0x0000FFFF ≠ 15) :
    Vulkan.GetExecutionModel_loop code end_ (fuel + 1) pos =
      Vulkan.GetExecutionModel_loop code end_ fuel (pos + 1) := by
  simp only [Vulkan.GetExecutionModel_loop, hlt, if_true, decoded_length, hop, if_false]

/-- C14: the scanner does not advance by the word count. On the buffer
`[0x07230203, 0, 0, 0, 0, 0x00030011, 0x0000000F, 0x00000000, 0x0003000F, 0x00000004]`
the instruction at word 5 has opcode 17 and word count 3, yet the scan moves on by one
word, takes its operand word 6 for an entry-point instruction and returns Vertex from
word 7, where the statement expects Fragment from word 9. This holds for
`GetExecutionModel` on the 10 words and for the stage that `deshade_vkCreateShaderModule`
computes for the 40 bytes. The cause is the line that decodes the word count: it yields 0
for every token, which the loop then replaces by 1. -/
theorem scan_ignores_word_count :
    Vulkan.GetExecutionModel (wordsAt operandLooksLikeEntryPoint) 10 =
      Vulkan.ExecutionModel.Vertex ∧
    Vulkan.modelOf (bytesOfWords operandLooksLikeEntryPoint) 40 =
      Vulkan.ExecutionModel.Vertex ∧
    wordsAt operandLooksLikeEntryPoint 5 &&& 0x0000FFFF = 17 ∧
    wordsAt operandLooksLikeEntryPoint 5 / 2 ^ 16 = 3 ∧
    (∀ token : Nat, (((token &&& 0xFFFF0000) % 2 ^ 16) >>> 16) % 2 ^ 16 = 0) :=
  ⟨by decide, by decide, by decide, by decide, decoded_length⟩

/-- C15: an entry-point declaration whose model code is outside 0..5 does not end the
scan. In a module whose first entry-point instruction has model code 6 and whose second
has model code 0 the switch matches no case at the first one, the loop goes on and the
result is Vertex, where the statement expects Unknown. -/
theorem scan_continues_past_unlisted_model :
    wordsAt twoEntryPoints 5 &&& 0x0000FFFF = 15 ∧ wordsAt twoEntryPoints 6 = 6 ∧
    wordsAt twoEntryPoints 9 &&& 0x0000FFFF = 15 ∧ wordsAt twoEntryPoints 10 = 0 ∧
    Vulkan.GetExecutionModel (wordsAt twoEntryPoints) 13 = Vulkan.ExecutionModel.Vertex ∧
    Vulkan.modelOf (bytesOfWords twoEntryPoints) 52 = Vulkan.ExecutionModel.Vertex :=
  ⟨by decide, by decide, by decide, by decide, by decide, by decide⟩

/-- C16: the stage scan leaves the submitted buffer. Two calls that submit the same 24
bytes (a header and one instruction that is no entry point) get different stages,
Fragment and Unknown, depending on the two words that follow the buffer in memory; and
for a buffer whose last word is an entry-point word the model code is taken from the
word behind the buffer (Fragment for 4, Geometry for 3). -/
theorem scan_reads_behind_buffer :
    Vulkan.submitted (bytesOfWords (noEntryPoint ++ [0x0003000F, 4])) 24 =
      Vulkan.submitted (bytesOfWords (noEntryPoint ++ [0, 0])) 24 ∧
    Vulkan.modelOf (bytesOfWords (noEntryPoint ++ [0x0003000F, 4])) 24 =
      Vulkan.ExecutionModel.Fragment ∧
    Vulkan.modelOf (bytesOfWords (noEntryPoint ++ [0, 0])) 24 =
      Vulkan.ExecutionModel.Unknown ∧
    Vulkan.submitted (bytesOfWords (entryPointLast ++ [4])) 24 =
      Vulkan.submitted (bytesOfWords (entryPointLast ++ [3])) 24 ∧
    Vulkan.modelOf (bytesOfWords (entryPointLast ++ [4])) 24 =
      Vulkan.ExecutionModel.Fragment ∧
    Vulkan.modelOf (bytesOfWords (entryPointLast ++ [3])) 24 =
      Vulkan.ExecutionModel.Geometry :=
  ⟨by decide, by decide, by decide, by decide, by decide, by decide⟩

theorem GetExecutionModel_loop_ne_Compute (code : Nat → Nat) (end_ fuel pos : Nat) :
    Vulkan.GetExecutionModel_loop code end_ fuel pos ≠ Vulkan.ExecutionModel.Compute := by
  induction fuel generalizing pos with
  | zero => simp [Vulkan.GetExecutionModel_loop]
  | succ f ih =>
    simp only [Vulkan.GetExecutionModel_loop, decoded_length, if_true]
    split_ifs <;> first | exact ih _ | simp

theorem GetExecutionModel_ne_Compute (code : Nat → Nat) (end_ : Nat) :
    Vulkan.GetExecutionModel code end_ ≠ Vulkan.ExecutionModel.Compute := by
  unfold Vulkan.GetExecutionModel
  split_ifs
  · exact GetExecutionModel_loop_ne_Compute _ _ _ _
  · simp

theorem not_suffix_of_last {α : Type} (xs pre t : List α) (c : α) (hx : xs ≠ [])
    (hc : ∀ x ∈ xs, x ≠ c) (ys : List α) : ys ++ xs ≠ pre ++ (t ++ [c]) := by
  intro h
  have h2 := congrArg (fun l => l.reverse.head?) h
  simp only [List.reverse_append, List.reverse_cons, List.reverse_nil, List.nil_append,
    List.singleton_append, List.cons_append, List.head?_cons] at h2
  cases hr : xs.reverse with
  | nil => exact hx (List.reverse_eq_nil_iff.mp hr)
  | cons y ys' =>
    rw [hr] at h2
    simp only [List.cons_append, List.head?_cons, Option.some.injEq] at h2
    have hy : y ∈ xs := by
      have : y ∈ xs.reverse := by rw [hr]; exact List.mem_cons_self _ _
      exact List.mem_reverse.mp this
    exact hc y hy h2

theorem Hash128_data (b : List Byte) :
    (Hash128 b).data ≠ [] ∧ ∀ x ∈ (Hash128 b).data, x ≠ 'n' := by
  constructor
  · intro h
    have h32 : (Hash128 b).length = 32 := by
      rw [Hash128_eq_specDigest]; exact specDigest_length b
    rw [String.length, h] at h32
    simp at h32
  · intro x hx hn
    have hmem := specDigest_chars b x (by rw [← Hash128_eq_specDigest]; exact hx)
    rw [hn] at hmem
    revert hmem
    decide

theorem file_name_not_cs (pCode : Nat → Byte) (codeSize : Nat) :
    ¬ ∃ pre, (Vulkan.file_name pCode codeSize).toList = pre ++ "_cs.bin".toList := by
  rintro ⟨pre, h⟩
  have hne := GetExecutionModel_ne_Compute (Vulkan.loadWord pCode) codeSize
  simp only [Vulkan.file_name, Vulkan.modelOf, String.toList, String.data_append] at h
  cases hm : Vulkan.GetExecutionModel (Vulkan.loadWord pCode) codeSize <;> rw [hm] at h
  case Compute => exact hne hm
  case Unknown =>
    have hd := Hash128_data (Vulkan.submitted pCode codeSize)
    simp only [Vulkan.GetShaderExtensionString, List.append_nil] at h
    exact not_suffix_of_last _ pre ['_', 'c', 's', '.', 'b', 'i'] 'n' hd.1 hd.2 _ h
  all_goals
    have h2 := congrArg (fun l => (l.reverse.take 7)) h
    simp [Vulkan.GetShaderExtensionString] at h2

/-- C17: the scanned-stage table has no Compute case. For every word buffer
`GetExecutionModel` returns one of Unknown, Vertex, TessellationControl,
TessellationEvaluation, Geometry, Fragment, Kernel and never Compute (an entry point with
model code 5 gives Kernel); so the suffix used by `deshade_vkCreateShaderModule` is one
of `_vs.bin`, `_tcs.bin`, `_tes.bin`, `_gs.bin`, `_fs.bin`, `_ks.bin` or empty, and the
cache path it builds never ends in `_cs.bin`. -/
theorem no_compute_stage :
    (∀ (code : Nat → Nat) (end_ : Nat),
      Vulkan.GetExecutionModel code end_ ≠ Vulkan.ExecutionModel.Compute) ∧
    Vulkan.GetExecutionModel (wordsAt modelCodeFive) 7 = Vulkan.ExecutionModel.Kernel ∧
    (∀ (pCode : Nat → Byte) (codeSize : Nat),
      Vulkan.GetShaderExtensionString (Vulkan.modelOf pCode codeSize) ∈
        ["_vs.bin", "_tcs.bin", "_tes.bin", "_gs.bin", "_fs.bin", "_ks.bin", ""]) ∧
    (∀ (pCode : Nat → Byte) (codeSize : Nat),
      Vulkan.file_name pCode codeSize =
        "shaders/" ++ Hash128 (Vulkan.submitted pCode codeSize) ++
          Vulkan.GetShaderExtensionString (Vulkan.modelOf pCode codeSize) ∧
      ¬ ∃ pre, (Vulkan.file_name pCode codeSize).toList = pre ++ "_cs.bin".toList) := by
  refine ⟨GetExecutionModel_ne_Compute, by decide, ?_, fun pCode codeSize =>
    ⟨rfl, file_name_not_cs pCode codeSize⟩⟩
  intro pCode codeSize
  have hne := GetExecutionModel_ne_Compute (Vulkan.loadWord pCode) codeSize
  unfold Vulkan.modelOf
  cases hm : Vulkan.GetExecutionModel (Vulkan.loadWord pCode) codeSize
  case Compute => exact absurd hm hne
  all_goals simp [Vulkan.GetShaderExtensionString]

/-! ## Registration on successful creation -/

theorem umap_find_insert_new {β : Type} (m : List (Nat × β)) (k : Nat) (v : β)
    (h : umap_find m k = none) : umap_find (umap_insert m k v) k = some v := by
  simp only [umap_insert, h, umap_find, if_true]

theorem umap_insert_existing {β : Type} (m : List (Nat × β)) (k : Nat) (v old : β)
    (h : umap_find m k = some old) : umap_insert m k v = m := by
  simp only [umap_insert, h]

/-- C11, as amended: successful creation registers the record when the identity is new.
When the first link record of the chain carries a link and the real creation function
obtained through it returns `VK_SUCCESS`, `deshade_vkCreateInstance` (resp.
`deshade_vkCreateDevice`) returns `VK_SUCCESS` with the handle of the new object, after
fetching `vkGetInstanceProcAddr`, `vkDestroyInstance`,
`vkEnumerateDeviceExtensionProperties` (resp. `vkGetDeviceProcAddr`, `vkDestroyDevice`,
`vkCreateShaderModule`) for that object from the next layer. If the registry held no
record under the `DispatchKey` of the new object, looking that key up afterwards finds
the table of exactly these three fetched entry points; a record that was already there
under that key is kept, and is what the lookup finds. -/
theorem fresh_identity_is_registered :
    (∀ (env : Vulkan.NextLayer) (st : Vulkan.State)
        (skipped rest : List Vulkan.VkLayerInstanceCreateInfo)
        (info : Vulkan.VkLayerInstanceCreateInfo) (link : Vulkan.VkLayerInstanceLink)
        (pNext : List Vulkan.VkLayerInstanceLink) (out : Vulkan.CreateOutcome),
      (∀ r ∈ skipped, ¬ (r.sType = Vulkan.VK_STRUCTURE_TYPE_LOADER_INSTANCE_CREATE_INFO ∧
        r.function = Vulkan.VK_LAYER_LINK_INFO)) →
      info.sType = Vulkan.VK_STRUCTURE_TYPE_LOADER_INSTANCE_CREATE_INFO →
      info.function = Vulkan.VK_LAYER_LINK_INFO →
      info.pLayerInfo = link :: pNext →
      env.CreateInstance
        (env.GetInstanceProcAddr link.pfnNextGetInstanceProcAddr 0 "vkCreateInstance")
        (skipped ++ { info with pLayerInfo := pNext } :: rest) st.memory = out →
      out.result = Vulkan.VK_SUCCESS →
      ∃ st', Vulkan.deshade_vkCreateInstance env st (skipped ++ info :: rest) =
          some (Vulkan.VK_SUCCESS, some out.handle, st') ∧
        st'.memory = out.memory ∧
        st'.calls = st.calls ++
          [Vulkan.Call.GetInstanceProcAddr link.pfnNextGetInstanceProcAddr 0 "vkCreateInstance",
           Vulkan.Call.CreateInstance
             (env.GetInstanceProcAddr link.pfnNextGetInstanceProcAddr 0 "vkCreateInstance")
             (skipped ++ { info with pLayerInfo := pNext } :: rest),
           Vulkan.Call.GetInstanceProcAddr link.pfnNextGetInstanceProcAddr out.handle
             "vkGetInstanceProcAddr",
           Vulkan.Call.GetInstanceProcAddr link.pfnNextGetInstanceProcAddr out.handle
             "vkDestroyInstance",
           Vulkan.Call.GetInstanceProcAddr link.pfnNextGetInstanceProcAddr out.handle
             "vkEnumerateDeviceExtensionProperties"] ∧
        (umap_find st.context.instance_dispatch_ (Vulkan.DispatchKey out.memory out.handle) =
            none →
          umap_find st'.context.instance_dispatch_ (Vulkan.DispatchKey st'.memory out.handle) =
            some
              { GetInstanceProcAddr :=
                  env.GetInstanceProcAddr link.pfnNextGetInstanceProcAddr out.handle
                    "vkGetInstanceProcAddr"
                DestroyInstance :=
                  env.GetInstanceProcAddr link.pfnNextGetInstanceProcAddr out.handle
                    "vkDestroyInstance"
                EnumerateDeviceExtensionProperties :=
                  env.GetInstanceProcAddr link.pfnNextGetInstanceProcAddr out.handle
                    "vkEnumerateDeviceExtensionProperties" }) ∧
        (∀ old,
          umap_find st.context.instance_dispatch_ (Vulkan.DispatchKey out.memory out.handle) =
            some old →
          umap_find st'.context.instance_dispatch_ (Vulkan.DispatchKey st'.memory out.handle) =
            some old)) ∧
    (∀ (env : Vulkan.NextLayer) (st : Vulkan.State) (physicalDevice : Nat)
        (skipped rest : List Vulkan.VkLayerDeviceCreateInfo)
        (info : Vulkan.VkLayerDeviceCreateInfo) (link : Vulkan.VkLayerDeviceLink)
        (pNext : List Vulkan.VkLayerDeviceLink) (out : Vulkan.CreateOutcome),
      (∀ r ∈ skipped, ¬ (r.sType = Vulkan.VK_STRUCTURE_TYPE_LOADER_DEVICE_CREATE_INFO ∧
        r.function = Vulkan.VK_LAYER_LINK_INFO)) →
      info.sType = Vulkan.VK_STRUCTURE_TYPE_LOADER_DEVICE_CREATE_INFO →
      info.function = Vulkan.VK_LAYER_LINK_INFO →
      info.pLayerInfo = link :: pNext →
      env.CreateDevice
        (env.GetInstanceProcAddr link.pfnNextGetInstanceProcAddr 0 "vkCreateDevice")
        physicalDevice (skipped ++ { info with pLayerInfo := pNext } :: rest) st.memory = out →
      out.result = Vulkan.VK_SUCCESS →
      ∃ st', Vulkan.deshade_vkCreateDevice env st physicalDevice (skipped ++ info :: rest) =
          some (Vulkan.VK_SUCCESS, some out.handle, st') ∧
        st'.memory = out.memory ∧
        st'.calls = st.calls ++
          [Vulkan.Call.GetInstanceProcAddr link.pfnNextGetInstanceProcAddr 0 "vkCreateDevice",
           Vulkan.Call.CreateDevice
             (env.GetInstanceProcAddr link.pfnNextGetInstanceProcAddr 0 "vkCreateDevice")
             physicalDevice (skipped ++ { info with pLayerInfo := pNext } :: rest),
           Vulkan.Call.GetDeviceProcAddr link.pfnNextGetDeviceProcAddr out.handle
             "vkGetDeviceProcAddr",
           Vulkan.Call.GetDeviceProcAddr link.pfnNextGetDeviceProcAddr out.handle
             "vkDestroyDevice",
           Vulkan.Call.GetDeviceProcAddr link.pfnNextGetDeviceProcAddr out.handle
             "vkCreateShaderModule"] ∧
        (umap_find st.context.device_dispatch_ (Vulkan.DispatchKey out.memory out.handle) =
            none →
          umap_find st'.context.device_dispatch_ (Vulkan.DispatchKey st'.memory out.handle) =
            some
              { GetDeviceProcAddr :=
                  env.GetDeviceProcAddr link.pfnNextGetDeviceProcAddr out.handle
                    "vkGetDeviceProcAddr"
                DestroyDevice :=
                  env.GetDeviceProcAddr link.pfnNextGetDeviceProcAddr out.handle
                    "vkDestroyDevice"
                CreateShaderModule :=
                  env.GetDeviceProcAddr link.pfnNextGetDeviceProcAddr out.handle
                    "vkCreateShaderModule" }) ∧
        (∀ old,
          umap_find st.context.device_dispatch_ (Vulkan.DispatchKey out.memory out.handle) =
            some old →
          umap_find st'.context.device_dispatch_ (Vulkan.DispatchKey st'.memory out.handle) =
            some old)) := by
  constructor
  · intro env st skipped rest info link pNext out hs h1 h2 h3 hout hok
    have hsp := span_at_first (fun r : Vulkan.VkLayerInstanceCreateInfo =>
      decide (r.sType ≠ Vulkan.VK_STRUCTURE_TYPE_LOADER_INSTANCE_CREATE_INFO ∨
        r.function ≠ Vulkan.VK_LAYER_LINK_INFO)) skipped rest info
      (fun r hr => by have := hs r hr; simp only [decide_eq_true_eq]; tauto)
      (by simp [h1, h2])
    simp only [Vulkan.deshade_vkCreateInstance, hsp.1, hsp.2, h3, hout, hok, ne_eq,
      not_true_eq_false, if_false]
    refine ⟨_, rfl, rfl, by simp, fun hnone => ?_, fun old hold => ?_⟩
    · exact umap_find_insert_new _ _ _ hnone
    · simp only
      rw [umap_insert_existing _ _ _ old hold]
      exact hold
  · intro env st physicalDevice skipped rest info link pNext out hs h1 h2 h3 hout hok
    have hsp := span_at_first (fun r : Vulkan.VkLayerDeviceCreateInfo =>
      decide (r.sType ≠ Vulkan.VK_STRUCTURE_TYPE_LOADER_DEVICE_CREATE_INFO ∨
        r.function ≠ Vulkan.VK_LAYER_LINK_INFO)) skipped rest info
      (fun r hr => by have := hs r hr; simp only [decide_eq_true_eq]; tauto)
      (by simp [h1, h2])
    simp only [Vulkan.deshade_vkCreateDevice, hsp.1, hsp.2, h3, hout, hok, ne_eq,
      not_true_eq_false, if_false]
    refine ⟨_, rfl, rfl, by simp, fun hnone => ?_, fun old hold => ?_⟩
    · exact umap_find_insert_new _ _ _ hnone
    · simp only
      rw [umap_insert_existing _ _ _ old hold]
      exact hold


theorem fresh_identity_is_registered_witness :
    (∃ st', Vulkan.deshade_vkCreateInstance (sampleLayer 0 200)
          (registered (fun _ => none) true) instanceChain =
          some (Vulkan.VK_SUCCESS, some 5000, st') ∧
        umap_find (registered (fun _ => none) true).context.instance_dispatch_ 200 = none ∧
        Vulkan.DispatchKey st'.memory 5000 = 200 ∧
        umap_find st'.context.instance_dispatch_ (Vulkan.DispatchKey st'.memory 5000) =
          some { GetInstanceProcAddr := 21, DestroyInstance := 17,
                 EnumerateDeviceExtensionProperties := 36 }) ∧
    (∃ st', Vulkan.deshade_vkCreateDevice (sampleLayer 0 200)
          (registered (fun _ => none) true) 9 deviceChain =
          some (Vulkan.VK_SUCCESS, some 5008, st') ∧
        umap_find (registered (fun _ => none) true).context.device_dispatch_ 200 = none ∧
        Vulkan.DispatchKey st'.memory 5008 = 200 ∧
        umap_find st'.context.device_dispatch_ (Vulkan.DispatchKey st'.memory 5008) =
          some { GetDeviceProcAddr := 1019, DestroyDevice := 1015,
                 CreateShaderModule := 1020 }) := by
  constructor
  · obtain ⟨st', h1, h2, _, h4, _⟩ :=
      fresh_identity_is_registered.1 (sampleLayer 0 200) (registered (fun _ => none) true)
        [{ sType := 1000011000, function := 7, pLayerInfo := [] }] []
        { sType := Vulkan.VK_STRUCTURE_TYPE_LOADER_INSTANCE_CREATE_INFO,
          function := Vulkan.VK_LAYER_LINK_INFO,
          pLayerInfo := [{ pfnNextGetInstanceProcAddr := 77 }] }
        { pfnNextGetInstanceProcAddr := 77 } [] _ (by decide) rfl rfl rfl rfl rfl
    exact ⟨st', h1, by decide, by rw [h2]; rfl, h4 (by decide)⟩
  · obtain ⟨st', h1, h2, _, h4, _⟩ :=
      fresh_identity_is_registered.2 (sampleLayer 0 200) (registered (fun _ => none) true) 9
        [{ sType := 1000011000, function := 7, pLayerInfo := [] }] []
        { sType := Vulkan.VK_STRUCTURE_TYPE_LOADER_DEVICE_CREATE_INFO,
          function := Vulkan.VK_LAYER_LINK_INFO,
          pLayerInfo := [{ pfnNextGetInstanceProcAddr := 77, pfnNextGetDeviceProcAddr := 78 }] }
        { pfnNextGetInstanceProcAddr := 77, pfnNextGetDeviceProcAddr := 78 } [] _
        (by decide) rfl rfl rfl rfl rfl
    exact ⟨st', h1, by decide, by rw [h2]; rfl, h4 (by decide)⟩

/-- C11, counterexample to the statement for every registry state. The registry holds a
record under the dispatch pointer 100; the next layer creates a new instance (resp.
device) whose dispatch pointer is 100 again and the entry point returns `VK_SUCCESS`.
The lookup of the identity of the new object afterwards finds the older table, not the
table of the entry points fetched during this creation call. -/
theorem existing_record_is_kept :
    (∃ st', Vulkan.deshade_vkCreateInstance (sampleLayer 0 100)
          (registered (fun _ => none) true) instanceChain =
          some (Vulkan.VK_SUCCESS, some 5000, st') ∧
        Vulkan.DispatchKey st'.memory 5000 = 100 ∧
        umap_find st'.context.instance_dispatch_ (Vulkan.DispatchKey st'.memory 5000) =
          some { GetInstanceProcAddr := 21, DestroyInstance := 22,
                 EnumerateDeviceExtensionProperties := 23 } ∧
        umap_find st'.context.instance_dispatch_ (Vulkan.DispatchKey st'.memory 5000) ≠
          some
            { GetInstanceProcAddr :=
                (sampleLayer 0 100).GetInstanceProcAddr 77 5000 "vkGetInstanceProcAddr"
              DestroyInstance :=
                (sampleLayer 0 100).GetInstanceProcAddr 77 5000 "vkDestroyInstance"
              EnumerateDeviceExtensionProperties :=
                (sampleLayer 0 100).GetInstanceProcAddr 77 5000
                  "vkEnumerateDeviceExtensionProperties" }) ∧
    (∃ st', Vulkan.deshade_vkCreateDevice (sampleLayer 0 100)
          (registered (fun _ => none) true) 9 deviceChain =
          some (Vulkan.VK_SUCCESS, some 5008, st') ∧
        Vulkan.DispatchKey st'.memory 5008 = 100 ∧
        umap_find st'.context.device_dispatch_ (Vulkan.DispatchKey st'.memory 5008) =
          some { GetDeviceProcAddr := 31, DestroyDevice := 32, CreateShaderModule := 33 } ∧
        umap_find st'.context.device_dispatch_ (Vulkan.DispatchKey st'.memory 5008) ≠
          some
            { GetDeviceProcAddr :=
                (sampleLayer 0 100).GetDeviceProcAddr 78 5008 "vkGetDeviceProcAddr"
              DestroyDevice :=
                (sampleLayer 0 100).GetDeviceProcAddr 78 5008 "vkDestroyDevice"
              CreateShaderModule :=
                (sampleLayer 0 100).GetDeviceProcAddr 78 5008 "vkCreateShaderModule" }) :=
  ⟨⟨_, rfl, rfl, rfl, by decide⟩, ⟨_, rfl, rfl, rfl, by decide⟩⟩

/-! ## The loggers -/

theorem OpenGL_Log_escape (rest : List Char) (args : List String) :
    OpenGL.Log ('%' :: '%' :: rest) args = (OpenGL.Log rest args).map fun out => '%' :: out := by
  simp [OpenGL.Log]

theorem Vulkan_Log_escape (rest : List Char) (args : List String) :
    Vulkan.Log ('%' :: '%' :: rest) args = '%' :: Vulkan.Log rest args := by
  simp [Vulkan.Log]

theorem OpenGL_Log_abort_aux (n : Nat) :
    ∀ (format : List Char) (args : List String), format.length ≤ n →
      (OpenGL.Log format args = none ↔ misused format args.length = true) := by
  induction n with
  | zero =>
    intro format args h
    cases format with
    | nil => simp [OpenGL.Log, misused]
    | cons c rest => simp at h
  | succ n ih =>
    intro format args h
    cases format with
    | nil => simp [OpenGL.Log, misused]
    | cons c rest =>
      have hrest : rest.length ≤ n := by simpa using h
      by_cases hc : c = '%'
      · subst hc
        cases rest with
        | nil => cases args <;> simp [OpenGL.Log, misused]
        | cons c2 rest2 =>
          by_cases hc2 : c2 = '%'
          · subst hc2
            have := ih rest2 args (by simp at hrest; omega)
            simpa [OpenGL.Log, misused] using this
          · cases args with
            | nil => simp [OpenGL.Log, misused, hc2]
            | cons value args' =>
              have := ih (c2 :: rest2) args' hrest
              simpa [OpenGL.Log, misused, hc2] using this
      · have := ih rest args hrest
        rw [OpenGL.Log.eq_def, misused.eq_def]
        simpa [hc] using this

/-- C12: format-string misuse is fatal in the logger of deshade.cpp only. `Log` of
deshade.cpp reaches `abort()` exactly on the formats that have a placeholder with no
argument left, and a doubled percent sign is written as one percent sign by both loggers
without ending the run. `Log` of log.cpp, the logger of the bytecode front end, returns on
such a format: for `"100%"` without arguments it writes `100` and comes back, where the
logger of deshade.cpp does not return. -/
theorem bytecode_logger_returns_on_misuse :
    misused "100%".toList 0 = true ∧
    Vulkan.Log "100%".toList [] = "100".toList ∧
    OpenGL.Log "100%".toList [] = none ∧
    misused "% of %".toList 1 = true ∧
    Vulkan.Log "% of %".toList ["half"] = "half of ".toList ∧
    OpenGL.Log "% of %".toList ["half"] = none ∧
    (∀ (format : List Char) (args : List String),
      OpenGL.Log format args = none ↔ misused format args.length = true) ∧
    (∀ (rest : List Char) (args : List String),
      OpenGL.Log ('%' :: '%' :: rest) args =
          (OpenGL.Log rest args).map (fun out => '%' :: out) ∧
        Vulkan.Log ('%' :: '%' :: rest) args = '%' :: Vulkan.Log rest args) ∧
    OpenGL.Log "100%%".toList [] = some "100%".toList ∧
    Vulkan.Log "100%%".toList [] = "100%".toList :=
  ⟨by decide, by decide, by decide, by decide, by decide, by decide,
   fun format args => OpenGL_Log_abort_aux format.length format args (Nat.le_refl _),
   fun rest args => ⟨OpenGL_Log_escape rest args, Vulkan_Log_escape rest args⟩,
   by decide, by decide⟩

end Deshade
